import Mathlib

/-!
# GLSLTest: the GL resource manager of `src/gl.c`

A shallow embedding of `src/gl.c`.  Every function of the file becomes a Lean
function that threads an explicit graphics state `GLState` through the same
sequence of calls as the C code.  The graphics library itself is not part of
the repository; it is represented by

* `GLState`: the object tables and bindings the calls of `gl.c` touch, plus the
  sequence of calls issued so far (`trace`);
* `Backend`: what the driver decides on its own (the names it hands out, the
  compile and link verdicts, info-log lengths, uniform locations).

Host pointers are modelled as far as `gl.c` distinguishes them: a pointer is the
null pointer or a block obtained from `malloc`.  A block is taken to be valid
for what is stored into it and printed from it.  The null pointer is not: an
info-log fetch that stores through it (buffer size above 0) and a `%s` print of
it are undefined behaviour in C, and the run ends there (`Outcome.undefined`).
`link_shader_program` passes its never-assigned `log` pointer (`NULL`) to
`glGetProgramInfoLog` and `fprintf`, so a failed link never gets to
`glDeleteProgram`.
-/

set_option autoImplicit false

namespace GLSLTest

/-! ## Scalar types and the constants of the GL and GLEW headers -/

abbrev GLuint := Nat
abbrev GLint := Int
abbrev GLenum := Nat

def GLEW_OK : GLenum := 0
def GL_FALSE : GLint := 0
def GL_TRUE : GLint := 1
def GL_TRIANGLES : GLenum := 0x0004
def GL_DEPTH_BUFFER_BIT : Nat := 0x00000100
def GL_COLOR_BUFFER_BIT : Nat := 0x00004000
def GL_FLOAT : GLenum := 0x1406
def GL_ARRAY_BUFFER : GLenum := 0x8892
def GL_STATIC_DRAW : GLenum := 0x88E4
def GL_FRAGMENT_SHADER : GLenum := 0x8B30
def GL_VERTEX_SHADER : GLenum := 0x8B31
def GL_COMPILE_STATUS : GLenum := 0x8B81
def GL_LINK_STATUS : GLenum := 0x8B82
def GL_INFO_LOG_LENGTH : GLenum := 0x8B84

/-- Size in bytes of one `GLfloat`. -/
def sizeof_GLfloat : Nat := 4

/-! ## Host pointers, calls, state -/

/-- A host `char *` as far as `gl.c` distinguishes them: the null pointer, or a
block obtained from `malloc` with the requested byte count (allocation is taken
to succeed). -/
inductive HostPtr where
  | null
  | heap (bytes : Int)
  deriving DecidableEq, Repr

/-- What a shader object holds when it is linked: its stage and its source strings. -/
abbrev ShaderUnit := GLenum × List String

/-- One call leaving `gl.c`, with its arguments and, where it has one, its result. -/
inductive Call where
  | glewInit (ret : GLenum)
  | glCreateShader (shader_type : GLenum) (ret : GLuint)
  | glShaderSource (shader : GLuint) (count : Nat) (strings : List String)
  | glCompileShader (shader : GLuint)
  | glGetShaderiv (shader : GLuint) (pname : GLenum) (out : GLint)
  | glGetShaderInfoLog (shader : GLuint) (bufSize : GLint) (infoLog : HostPtr)
  | glDeleteShader (shader : GLuint)
  | glCreateProgram (ret : GLuint)
  | glAttachShader (program shader : GLuint)
  | glLinkProgram (program : GLuint)
  | glGetProgramiv (program : GLuint) (pname : GLenum) (out : GLint)
  | glGetProgramInfoLog (program : GLuint) (bufSize : GLint) (infoLog : HostPtr)
  | glDeleteProgram (program : GLuint)
  | glGenBuffers (n : Nat) (ret : GLuint)
  | glBindBuffer (target : GLenum) (buffer : GLuint)
  | glBufferData (target : GLenum) (size : Nat) (data : List Int) (usage : GLenum)
  | glDeleteBuffers (n : Nat) (buffer : GLuint)
  | glGenVertexArrays (n : Nat) (ret : GLuint)
  | glBindVertexArray (array : GLuint)
  | glEnableVertexAttribArray (index : GLuint)
  | glDisableVertexAttribArray (index : GLuint)
  | glVertexAttribPointer (index : GLuint) (size : GLint) (type : GLenum)
      (normalized : GLint) (stride : Nat) (pointer : Nat)
  | glDeleteVertexArrays (n : Nat) (array : GLuint)
  | glGetUniformLocation (program : GLuint) (name : String) (ret : GLint)
  | glClear (mask : Nat)
  | glDrawArrays (mode : GLenum) (first : GLint) (count : Nat)
  | glewGetErrorString (err : GLenum)
  | malloc (bytes : Int)
  | fprintf_stderr (arg : HostPtr)
  | fprintf_stderr_glew (err : GLenum)
  | free (ptr : HostPtr)
  deriving DecidableEq, Repr

/-- The layout of one generic vertex attribute, as `glVertexAttribPointer`
stores it in the bound vertex array: the buffer bound to `GL_ARRAY_BUFFER` at
the time of the call and the five layout arguments. -/
structure AttribLayout where
  buffer : GLuint
  size : GLint
  type : GLenum
  normalized : GLint
  stride : Nat
  pointer : Nat
  deriving DecidableEq, Repr

/-- The part of the graphics state that the calls of `gl.c` read or write. -/
structure GLState where
  /-- the global `glewExperimental` -/
  glewExperimental : Nat
  /-- names of the live buffer objects -/
  buffers : Finset GLuint
  /-- names of the live vertex array objects -/
  vertexArrays : Finset GLuint
  /-- names of the live shader objects -/
  shaders : Finset GLuint
  /-- names of the live program objects -/
  programs : Finset GLuint
  shaderType : GLuint → GLenum
  shaderSource : GLuint → List String
  compileStatus : GLuint → Bool
  attachedShaders : GLuint → List GLuint
  linkStatus : GLuint → Bool
  /-- size, contents and usage hint of each buffer's data store -/
  bufferStore : GLuint → Option (Nat × List Int × GLenum)
  /-- buffer bound to `GL_ARRAY_BUFFER` -/
  arrayBufferBinding : GLuint
  /-- currently bound vertex array (0: none, or the default one) -/
  vertexArrayBinding : GLuint
  /-- per vertex array, per attribute index: is the attribute array enabled? -/
  attribEnabled : GLuint → GLuint → Bool
  /-- per vertex array, per attribute index: the layout last described -/
  attribLayout : GLuint → GLuint → Option AttribLayout
  /-- every call issued so far, oldest first -/
  trace : List Call

/-- How a run ends: it returns a value in some state, or it reaches an operation
whose behaviour C leaves undefined, in the state reached by then (the trace of
that state ends with the offending call). -/
inductive Outcome (α : Type) where
  | returned (value : α) (s : GLState)
  | undefined (s : GLState)

/-- The value a run returned, if it returned. -/
def Outcome.value? {α : Type} : Outcome α → Option α
  | .returned a _ => some a
  | .undefined _ => none

/-- The state in which a run ended, by return or by undefined behaviour. -/
def Outcome.state {α : Type} : Outcome α → GLState
  | .returned _ s => s
  | .undefined s => s

/-- Sequencing: the rest of the function runs only if the first part returned. -/
def Outcome.bind {α β : Type} (o : Outcome α) (k : α → GLState → Outcome β) : Outcome β :=
  match o with
  | .returned a s => k a s
  | .undefined s => .undefined s

/-- A state with no object, nothing bound and no call issued. -/
def GLState.empty : GLState where
  glewExperimental := 0
  buffers := ∅
  vertexArrays := ∅
  shaders := ∅
  programs := ∅
  shaderType := fun _ => 0
  shaderSource := fun _ => []
  compileStatus := fun _ => false
  attachedShaders := fun _ => []
  linkStatus := fun _ => false
  bufferStore := fun _ => none
  arrayBufferBinding := 0
  vertexArrayBinding := 0
  attribEnabled := fun _ _ => false
  attribLayout := fun _ _ => none
  trace := []

/-- Append one call to the trace. -/
def GLState.record (s : GLState) (c : Call) : GLState :=
  { s with trace := s.trace ++ [c] }

/-- The shader units attached to `program`, in attachment order. -/
def GLState.attachedUnits (s : GLState) (program : GLuint) : List ShaderUnit :=
  (s.attachedShaders program).map (fun h => (s.shaderType h, s.shaderSource h))

/-- Everything the driver decides by itself.  Names of new objects may depend on
the whole state; compile and link verdicts and info-log lengths depend on what
is compiled or linked; a uniform location depends on the program and the name. -/
structure Backend where
  /-- result of `glewInit()` -/
  glewInitResult : GLenum
  newShaderName : GLState → GLenum → GLuint
  newProgramName : GLState → GLuint
  newBufferName : GLState → GLuint
  newVertexArrayName : GLState → GLuint
  compileOk : GLenum → List String → Bool
  shaderLogLength : GLenum → List String → GLint
  linkOk : List ShaderUnit → Bool
  programLogLength : List ShaderUnit → GLint
  uniformLocation : GLuint → String → GLint

/-- The driver hands out names that are non-zero and not in use by a live
object of the same kind. -/
structure Backend.WellBehaved (B : Backend) : Prop where
  shader_ne_zero : ∀ s t, B.newShaderName s t ≠ 0
  shader_fresh : ∀ s t, B.newShaderName s t ∉ s.shaders
  program_ne_zero : ∀ s, B.newProgramName s ≠ 0
  program_fresh : ∀ s, B.newProgramName s ∉ s.programs
  buffer_ne_zero : ∀ s, B.newBufferName s ≠ 0
  buffer_fresh : ∀ s, B.newBufferName s ∉ s.buffers
  vertexArray_ne_zero : ∀ s, B.newVertexArrayName s ≠ 0
  vertexArray_fresh : ∀ s, B.newVertexArrayName s ∉ s.vertexArrays

/-! ## The library calls used by `gl.c` -/

def glewInit (B : Backend) (s : GLState) : GLenum × GLState :=
  (B.glewInitResult, s.record (.glewInit B.glewInitResult))

def glCreateShader (B : Backend) (shader_type : GLenum) (s : GLState) : GLuint × GLState :=
  let h := B.newShaderName s shader_type
  (h, { s with
        shaders := insert h s.shaders
        shaderType := Function.update s.shaderType h shader_type
        shaderSource := Function.update s.shaderSource h []
        compileStatus := Function.update s.compileStatus h false
        trace := s.trace ++ [.glCreateShader shader_type h] })

/-- Sets the source of `shader` to the first `count` strings (the length array
passed by `gl.c` is `NULL`: every string is null-terminated). -/
def glShaderSource (shader : GLuint) (count : Nat) (strings : List String) (s : GLState) :
    GLState :=
  { s with
    shaderSource := Function.update s.shaderSource shader (strings.take count)
    trace := s.trace ++ [.glShaderSource shader count strings] }

def glCompileShader (B : Backend) (shader : GLuint) (s : GLState) : GLState :=
  { s with
    compileStatus :=
      Function.update s.compileStatus shader
        (B.compileOk (s.shaderType shader) (s.shaderSource shader))
    trace := s.trace ++ [.glCompileShader shader] }

/-- Query of a shader parameter; the value the call writes through its
out-pointer is the result. -/
def glGetShaderiv (B : Backend) (shader : GLuint) (pname : GLenum) (s : GLState) :
    GLint × GLState :=
  let v : GLint :=
    if pname = GL_COMPILE_STATUS then (if s.compileStatus shader then GL_TRUE else GL_FALSE)
    else if pname = GL_INFO_LOG_LENGTH then
      B.shaderLogLength (s.shaderType shader) (s.shaderSource shader)
    else 0
  (v, s.record (.glGetShaderiv shader pname v))

/-- Fetch of a shader info log into `infoLog`.  With `bufSize` above 0 the driver
stores at least the terminator through `infoLog`; through the null pointer that
is undefined. -/
def glGetShaderInfoLog (shader : GLuint) (bufSize : GLint) (infoLog : HostPtr) (s : GLState) :
    Outcome Unit :=
  let s := s.record (.glGetShaderInfoLog shader bufSize infoLog)
  if infoLog = HostPtr.null ∧ 0 < bufSize then .undefined s else .returned () s

/-- Deletes the shader.  (A shader that is attached to a live program would only
be flagged for deletion; `gl.c` never deletes a shader in that situation, and
the flag is not modelled.) -/
def glDeleteShader (shader : GLuint) (s : GLState) : GLState :=
  { s with
    shaders := s.shaders.erase shader
    trace := s.trace ++ [.glDeleteShader shader] }

def glCreateProgram (B : Backend) (s : GLState) : GLuint × GLState :=
  let h := B.newProgramName s
  (h, { s with
        programs := insert h s.programs
        attachedShaders := Function.update s.attachedShaders h []
        linkStatus := Function.update s.linkStatus h false
        trace := s.trace ++ [.glCreateProgram h] })

def glAttachShader (program shader : GLuint) (s : GLState) : GLState :=
  { s with
    attachedShaders :=
      Function.update s.attachedShaders program (s.attachedShaders program ++ [shader])
    trace := s.trace ++ [.glAttachShader program shader] }

def glLinkProgram (B : Backend) (program : GLuint) (s : GLState) : GLState :=
  { s with
    linkStatus := Function.update s.linkStatus program (B.linkOk (s.attachedUnits program))
    trace := s.trace ++ [.glLinkProgram program] }

/-- Query of a program parameter; the value the call writes through its
out-pointer is the result. -/
def glGetProgramiv (B : Backend) (program : GLuint) (pname : GLenum) (s : GLState) :
    GLint × GLState :=
  let v : GLint :=
    if pname = GL_LINK_STATUS then (if s.linkStatus program then GL_TRUE else GL_FALSE)
    else if pname = GL_INFO_LOG_LENGTH then B.programLogLength (s.attachedUnits program)
    else 0
  (v, s.record (.glGetProgramiv program pname v))

/-- Fetch of a program info log into `infoLog`.  With `bufSize` above 0 the
driver stores at least the terminator through `infoLog`; through the null
pointer that is undefined. -/
def glGetProgramInfoLog (program : GLuint) (bufSize : GLint) (infoLog : HostPtr) (s : GLState) :
    Outcome Unit :=
  let s := s.record (.glGetProgramInfoLog program bufSize infoLog)
  if infoLog = HostPtr.null ∧ 0 < bufSize then .undefined s else .returned () s

/-- Deletes the program; its shaders are detached, not deleted.  (`gl.c` never
makes a program current, so deletion is never deferred.) -/
def glDeleteProgram (program : GLuint) (s : GLState) : GLState :=
  { s with
    programs := s.programs.erase program
    attachedShaders := Function.update s.attachedShaders program []
    trace := s.trace ++ [.glDeleteProgram program] }

def glGenBuffers (B : Backend) (n : Nat) (s : GLState) : GLuint × GLState :=
  let h := B.newBufferName s
  (h, { s with
        buffers := insert h s.buffers
        bufferStore := Function.update s.bufferStore h none
        trace := s.trace ++ [.glGenBuffers n h] })

def glBindBuffer (target : GLenum) (buffer : GLuint) (s : GLState) : GLState :=
  { s with
    arrayBufferBinding := if target = GL_ARRAY_BUFFER then buffer else s.arrayBufferBinding
    trace := s.trace ++ [.glBindBuffer target buffer] }

def glBufferData (target : GLenum) (size : Nat) (data : List Int) (usage : GLenum)
    (s : GLState) : GLState :=
  { s with
    bufferStore :=
      if target = GL_ARRAY_BUFFER then
        Function.update s.bufferStore s.arrayBufferBinding (some (size, data, usage))
      else s.bufferStore
    trace := s.trace ++ [.glBufferData target size data usage] }

/-- Deletes one buffer; a binding to it reverts to 0. -/
def glDeleteBuffers (n : Nat) (buffer : GLuint) (s : GLState) : GLState :=
  { s with
    buffers := s.buffers.erase buffer
    arrayBufferBinding := if s.arrayBufferBinding = buffer then 0 else s.arrayBufferBinding
    trace := s.trace ++ [.glDeleteBuffers n buffer] }

def glGenVertexArrays (B : Backend) (n : Nat) (s : GLState) : GLuint × GLState :=
  let h := B.newVertexArrayName s
  (h, { s with
        vertexArrays := insert h s.vertexArrays
        attribEnabled := Function.update s.attribEnabled h (fun _ => false)
        attribLayout := Function.update s.attribLayout h (fun _ => none)
        trace := s.trace ++ [.glGenVertexArrays n h] })

def glBindVertexArray (array : GLuint) (s : GLState) : GLState :=
  { s with
    vertexArrayBinding := array
    trace := s.trace ++ [.glBindVertexArray array] }

/-- Enables attribute `index` of the bound vertex array. -/
def glEnableVertexAttribArray (index : GLuint) (s : GLState) : GLState :=
  { s with
    attribEnabled :=
      Function.update s.attribEnabled s.vertexArrayBinding
        (Function.update (s.attribEnabled s.vertexArrayBinding) index true)
    trace := s.trace ++ [.glEnableVertexAttribArray index] }

/-- Disables attribute `index` of the bound vertex array. -/
def glDisableVertexAttribArray (index : GLuint) (s : GLState) : GLState :=
  { s with
    attribEnabled :=
      Function.update s.attribEnabled s.vertexArrayBinding
        (Function.update (s.attribEnabled s.vertexArrayBinding) index false)
    trace := s.trace ++ [.glDisableVertexAttribArray index] }

/-- Stores the layout of attribute `index`, together with the buffer bound to
`GL_ARRAY_BUFFER`, in the bound vertex array. -/
def glVertexAttribPointer (index : GLuint) (size : GLint) (type : GLenum) (normalized : GLint)
    (stride : Nat) (pointer : Nat) (s : GLState) : GLState :=
  { s with
    attribLayout :=
      Function.update s.attribLayout s.vertexArrayBinding
        (Function.update (s.attribLayout s.vertexArrayBinding) index
          (some ⟨s.arrayBufferBinding, size, type, normalized, stride, pointer⟩))
    trace := s.trace ++ [.glVertexAttribPointer index size type normalized stride pointer] }

/-- Deletes one vertex array; a binding to it reverts to 0. -/
def glDeleteVertexArrays (n : Nat) (array : GLuint) (s : GLState) : GLState :=
  { s with
    vertexArrays := s.vertexArrays.erase array
    vertexArrayBinding := if s.vertexArrayBinding = array then 0 else s.vertexArrayBinding
    trace := s.trace ++ [.glDeleteVertexArrays n array] }

def glGetUniformLocation (B : Backend) (program : GLuint) (name : String) (s : GLState) :
    GLint × GLState :=
  let v := B.uniformLocation program name
  (v, s.record (.glGetUniformLocation program name v))

def glClear (mask : Nat) (s : GLState) : GLState :=
  s.record (.glClear mask)

def glDrawArrays (mode : GLenum) (first : GLint) (count : Nat) (s : GLState) : GLState :=
  s.record (.glDrawArrays mode first count)

/-- The program's `malloc(bytes)`: the block is known by its requested size only. -/
def malloc (bytes : Int) (s : GLState) : HostPtr × GLState :=
  (.heap bytes, s.record (.malloc bytes))

/-- The program's `fprintf(stderr, "%s\n", arg)` for a log buffer.  The argument
of `%s` must point to a string; passing the null pointer is undefined. -/
def fprintf_stderr (arg : HostPtr) (s : GLState) : Outcome Unit :=
  let s := s.record (.fprintf_stderr arg)
  if arg = HostPtr.null then .undefined s else .returned () s

/-- The program's `free(ptr)`; `free(NULL)` is a no-op. -/
def free (ptr : HostPtr) (s : GLState) : GLState :=
  s.record (.free ptr)

/-! ## The functions of `gl.c` -/

/-- Function `init_glew` (gl.c:24). -/
def init_glew (B : Backend) (s : GLState) : Nat × GLState :=
  let s := { s with glewExperimental := 1 }
  let (err, s) := glewInit B s
  if err ≠ GLEW_OK then
    let s := s.record (.glewGetErrorString err)
    let s := s.record (.fprintf_stderr_glew err)
    (1, s)
  else
    (0, s)

/-- Function `compile_shader` (gl.c:37). -/
def compile_shader (B : Backend) (shader_type : GLenum) (srcs : List String) (srcs_sz : Nat)
    (s : GLState) : Outcome GLuint :=
  let (shader, s) := glCreateShader B shader_type s
  let s := glShaderSource shader srcs_sz srcs s
  let s := glCompileShader B shader s
  let (status, s) := glGetShaderiv B shader GL_COMPILE_STATUS s
  if status = GL_FALSE then
    let (log_length, s) := glGetShaderiv B shader GL_INFO_LOG_LENGTH s
    let (log, s) := malloc (log_length * 1) s
    (glGetShaderInfoLog shader log_length log s).bind fun _ s =>
    (fprintf_stderr log s).bind fun _ s =>
    let s := free log s
    let s := glDeleteShader shader s
    .returned 0 s
  else
    .returned shader s

/-- Function `link_shader_program` (gl.c:63).  The local `log` is initialised to `NULL`
and never assigned, so on a failed link the run ends at the info-log fetch (log
length above 0) or at the print that follows it. -/
def link_shader_program (B : Backend) (shaders : List GLuint) (shaders_sz : Nat)
    (s : GLState) : Outcome GLuint :=
  let log : HostPtr := .null
  let (program, s) := glCreateProgram B s
  let s := (List.range shaders_sz).foldl
    (fun s i => glAttachShader program (shaders.getD i 0) s) s
  let s := glLinkProgram B program s
  let (status, s) := glGetProgramiv B program GL_LINK_STATUS s
  if status = GL_FALSE then
    let (log_length, s) := glGetProgramiv B program GL_INFO_LOG_LENGTH s
    (glGetProgramInfoLog program log_length log s).bind fun _ s =>
    (fprintf_stderr log s).bind fun _ s =>
    let s := free log s
    let s := glDeleteProgram program s
    .returned 0 s
  else
    .returned program s

/-- Constant `vshader_src` (gl.c:90). -/
def vshader_src : String :=
  "#version 330 core\n" ++
  "layout(location=0) in vec2 vertex;\n" ++
  "out vec2 uv;\n" ++
  "void main(void)\n" ++
  "\x7b\n" ++
  "    gl_Position=vec4(vertex, 0, 1.0);\n" ++
  "    uv=vertex;\n" ++
  "\x7d\n"

/-- Function `compile_shader_program` (gl.c:100). -/
def compile_shader_program (B : Backend) (srcs : List String) (srcs_sz : Nat) (s : GLState) :
    Outcome GLuint :=
  (compile_shader B GL_VERTEX_SHADER [vshader_src] 1 s).bind fun shaders0 s =>
  if shaders0 = 0 then
    .returned 0 s
  else
    (compile_shader B GL_FRAGMENT_SHADER srcs srcs_sz s).bind fun shaders1 s =>
    if shaders1 = 0 then
      let s := glDeleteShader shaders0 s
      .returned 0 s
    else
      (link_shader_program B [shaders0, shaders1] 2 s).bind fun program s =>
      if program = 0 then
        let s := glDeleteShader shaders0 s
        let s := glDeleteShader shaders1 s
        .returned 0 s
      else
        .returned program s

/-- Function `create_vbo` (gl.c:124). -/
def create_vbo (B : Backend) (data : List Int) (data_bytes : Nat) (usage : GLenum)
    (s : GLState) : GLuint × GLState :=
  let (vbo, s) := glGenBuffers B 1 s
  let s := glBindBuffer GL_ARRAY_BUFFER vbo s
  let s := glBufferData GL_ARRAY_BUFFER data_bytes data usage s
  let s := glBindBuffer GL_ARRAY_BUFFER 0 s
  (vbo, s)

/-- Function `create_vao` (gl.c:134).  The four pointer arguments are arrays of `amount`
elements each. -/
def create_vao (B : Backend) (attrib_indices vbos : List GLuint) (sizes : List GLint)
    (types : List GLenum) (amount : Nat) (s : GLState) : GLuint × GLState :=
  let (vao, s) := glGenVertexArrays B 1 s
  let s := glBindVertexArray vao s
  let s := (List.range amount).foldl
    (fun s i =>
      let s := glEnableVertexAttribArray (attrib_indices.getD i 0) s
      let s := glBindBuffer GL_ARRAY_BUFFER (vbos.getD i 0) s
      glVertexAttribPointer (attrib_indices.getD i 0) (sizes.getD i 0) (types.getD i 0)
        GL_FALSE 0 0 s) s
  let s := glBindVertexArray 0 s
  let s := (List.range amount).foldl
    (fun s i => glDisableVertexAttribArray (attrib_indices.getD i 0) s) s
  (vao, s)

/-- Constant `quad_buffer` (gl.c:174): 6 * 3 `GLfloat`s.  Every entry is an integer
value, which a `GLfloat` holds exactly. -/
def quad_buffer : List Int :=
  [ 1,  1, 0,
    1, -1, 0,
   -1,  1, 0,
   -1,  1, 0,
    1, -1, 0,
   -1, -1, 0]

/-- Modelled from the spec: `struct gl_res` is declared in `gl.h`, which is not
among the sources.  The fields are the three object handles and the four
uniform locations of the spec's resource aggregate, under the names `gl.c`
uses for them. -/
structure gl_res where
  quad_vbo : GLuint
  quad_vao : GLuint
  shader_program : GLuint
  uniform_time : GLint
  uniform_mouse : GLint
  uniform_mouse_pressed : GLint
  uniform_res : GLint
  deriving DecidableEq, Repr

/-- Function `init_gl` (gl.c:183).  A run that returns yields the return value and the
aggregate behind `res` after the call. -/
def init_gl (B : Backend) (shader_srcs : List String) (shader_srcs_sz : Nat) (res : gl_res)
    (s : GLState) : Outcome (Nat × gl_res) :=
  let index : GLuint := 0
  let size : GLint := 3
  let type : GLenum := GL_FLOAT
  let (failed, s) := init_glew B s
  if failed ≠ 0 then
    .returned (1, res) s
  else
    let (vbo, s) := create_vbo B quad_buffer (quad_buffer.length * sizeof_GLfloat) GL_STATIC_DRAW s
    let res := { res with quad_vbo := vbo }
    let (vao, s) := create_vao B [index] [res.quad_vbo] [size] [type] 1 s
    let res := { res with quad_vao := vao }
    (compile_shader_program B shader_srcs shader_srcs_sz s).bind fun program s =>
    let res := { res with shader_program := program }
    if res.shader_program = 0 then
      let s := glDeleteBuffers 1 res.quad_vbo s
      let s := glDeleteVertexArrays 1 res.quad_vao s
      .returned (1, res) s
    else
      let (loc, s) := glGetUniformLocation B res.shader_program "time" s
      let res := { res with uniform_time := loc }
      let (loc, s) := glGetUniformLocation B res.shader_program "mouse" s
      let res := { res with uniform_mouse := loc }
      let (loc, s) := glGetUniformLocation B res.shader_program "mouse_pressed" s
      let res := { res with uniform_mouse_pressed := loc }
      let (loc, s) := glGetUniformLocation B res.shader_program "res" s
      let res := { res with uniform_res := loc }
      .returned (0, res) s

/-- Function `deinit_gl` (gl.c:213). -/
def deinit_gl (res : gl_res) (s : GLState) : GLState :=
  let s := glDeleteBuffers 1 res.quad_vbo s
  let s := glDeleteVertexArrays 1 res.quad_vao s
  glDeleteProgram res.shader_program s

/-- Function `render` (gl.c:220).  The aggregate is passed by pointer and never written;
it is returned as it stands after the call. -/
def render (res : gl_res) (s : GLState) : gl_res × GLState :=
  let s := glClear (GL_COLOR_BUFFER_BIT ||| GL_DEPTH_BUFFER_BIT) s
  let s := glBindVertexArray res.quad_vao s
  let s := glDrawArrays GL_TRIANGLES 0 6 s
  let s := glBindVertexArray 0 s
  (res, s)

/-! ## Call sequences and end states of the building blocks -/

/-- Calls of a `compile_shader` run whose compilation succeeds. -/
def compile_ok_calls (t : GLenum) (v : GLuint) (srcs : List String) (n : Nat) : List Call :=
  [.glCreateShader t v, .glShaderSource v n srcs, .glCompileShader v,
   .glGetShaderiv v GL_COMPILE_STATUS GL_TRUE]

/-- Calls of a `compile_shader` run whose compilation fails, `len` being the
reported info-log length. -/
def compile_fail_calls (t : GLenum) (v : GLuint) (srcs : List String) (n : Nat) (len : GLint) :
    List Call :=
  [.glCreateShader t v, .glShaderSource v n srcs, .glCompileShader v,
   .glGetShaderiv v GL_COMPILE_STATUS GL_FALSE, .glGetShaderiv v GL_INFO_LOG_LENGTH len,
   .malloc len, .glGetShaderInfoLog v len (.heap len), .fprintf_stderr (.heap len),
   .free (.heap len), .glDeleteShader v]

/-- Calls of a `link_shader_program` run that links. -/
def link_ok_calls (p : GLuint) (shaders : List GLuint) : List Call :=
  [.glCreateProgram p] ++ shaders.map (Call.glAttachShader p) ++
    [.glLinkProgram p, .glGetProgramiv p GL_LINK_STATUS GL_TRUE]

/-- Calls of a `link_shader_program` run whose link fails, `len` being the
reported info-log length: the run ends at the info-log fetch into the null
pointer when `len` is above 0, and at the print of the null pointer otherwise. -/
def link_fault_calls (p : GLuint) (shaders : List GLuint) (len : GLint) : List Call :=
  [.glCreateProgram p] ++ shaders.map (Call.glAttachShader p) ++
    [.glLinkProgram p, .glGetProgramiv p GL_LINK_STATUS GL_FALSE,
     .glGetProgramiv p GL_INFO_LOG_LENGTH len, .glGetProgramInfoLog p len .null] ++
    (if 0 < len then [] else [.fprintf_stderr .null])

/-- State after `compile_shader` created shader `v` of stage `t` from `src`,
with verdict `ok`, having issued `calls`. -/
def GLState.afterCompile (s : GLState) (v : GLuint) (t : GLenum) (src : List String)
    (ok : Bool) (calls : List Call) : GLState :=
  { s with
    shaders := if ok then insert v s.shaders else (insert v s.shaders).erase v
    shaderType := Function.update s.shaderType v t
    shaderSource := Function.update s.shaderSource v src
    compileStatus := Function.update s.compileStatus v ok
    trace := s.trace ++ calls }

/-- State in which `link_shader_program` ends after creating program `p` from
`shaders` with verdict `ok`, having issued `calls`: by return when the link
succeeded, by undefined behaviour when it failed.  The program is live in both. -/
def GLState.afterLink (s : GLState) (p : GLuint) (shaders : List GLuint) (ok : Bool)
    (calls : List Call) : GLState :=
  { s with
    programs := insert p s.programs
    attachedShaders := Function.update s.attachedShaders p shaders
    linkStatus := Function.update s.linkStatus p ok
    trace := s.trace ++ calls }

/-- The two shader units `compile_shader_program` hands to the linker. -/
def program_units (srcs : List String) (n : Nat) : List ShaderUnit :=
  [(GL_VERTEX_SHADER, [vshader_src]), (GL_FRAGMENT_SHADER, srcs.take n)]

/-! ## Reading a trace -/

/-- The calls issued between state `s` and a later state `s'`. -/
def newCalls (s s' : GLState) : List Call :=
  s'.trace.drop s.trace.length

/-- Names returned by `glCreateShader`, in call order. -/
def createdShaders (t : List Call) : List GLuint :=
  t.filterMap (fun c => match c with
    | .glCreateShader _ h => some h
    | _ => none)

/-- Names returned by `glCreateProgram`, in call order. -/
def createdPrograms (t : List Call) : List GLuint :=
  t.filterMap (fun c => match c with
    | .glCreateProgram h => some h
    | _ => none)

/-- Names returned by `glGenBuffers`, in call order. -/
def createdBuffers (t : List Call) : List GLuint :=
  t.filterMap (fun c => match c with
    | .glGenBuffers _ h => some h
    | _ => none)

/-- Names returned by `glGenVertexArrays`, in call order. -/
def createdVertexArrays (t : List Call) : List GLuint :=
  t.filterMap (fun c => match c with
    | .glGenVertexArrays _ h => some h
    | _ => none)

/-- Names passed to `glDeleteShader`, in call order. -/
def deletedShaders (t : List Call) : List GLuint :=
  t.filterMap (fun c => match c with
    | .glDeleteShader h => some h
    | _ => none)

/-- Names passed to `glDeleteProgram`, in call order. -/
def deletedPrograms (t : List Call) : List GLuint :=
  t.filterMap (fun c => match c with
    | .glDeleteProgram h => some h
    | _ => none)

/-- Names passed to `glDeleteBuffers`, in call order. -/
def deletedBuffers (t : List Call) : List GLuint :=
  t.filterMap (fun c => match c with
    | .glDeleteBuffers _ h => some h
    | _ => none)

/-- Names passed to `glDeleteVertexArrays`, in call order. -/
def deletedVertexArrays (t : List Call) : List GLuint :=
  t.filterMap (fun c => match c with
    | .glDeleteVertexArrays _ h => some h
    | _ => none)

/-- The draw calls of a trace. -/
def drawCalls (t : List Call) : List Call :=
  t.filter (fun c => match c with
    | .glDrawArrays _ _ _ => true
    | _ => false)

/-! ## A concrete driver -/

/-- A driver that names each new object one above the largest live name of its
kind, with the given verdicts, that reports 16-byte info logs, and that knows
the uniforms `time`, `mouse` and `mouse_pressed` but not `res`. -/
def sampleBackend (glew : GLenum) (vertex_ok fragment_ok link_ok : Bool) : Backend where
  glewInitResult := glew
  newShaderName := fun s _ => s.shaders.sup id + 1
  newProgramName := fun s => s.programs.sup id + 1
  newBufferName := fun s => s.buffers.sup id + 1
  newVertexArrayName := fun s => s.vertexArrays.sup id + 1
  compileOk := fun t _ => if t = GL_VERTEX_SHADER then vertex_ok else fragment_ok
  shaderLogLength := fun _ _ => 16
  linkOk := fun _ => link_ok
  programLogLength := fun _ => 16
  uniformLocation := fun _ name =>
    if name = "time" then 0 else if name = "mouse" then 1
    else if name = "mouse_pressed" then 2 else -1

/-- A one-string fragment source. -/
def sampleSrcs : List String := ["void main() \x7b\x7d"]

/-- An aggregate whose seven fields all hold 77, a value no call of the sample
runs produces. -/
def sampleRes : gl_res := ⟨77, 77, 77, 77, 77, 77, 77⟩

/-- One entry of the four parallel arrays passed to `create_vao`. -/
structure AttribDesc where
  index : GLuint
  vbo : GLuint
  size : GLint
  type : GLenum
  deriving DecidableEq, Repr

/-- The three calls of one iteration of the first loop of `create_vao`. -/
def fill_calls (d : AttribDesc) : List Call :=
  [.glEnableVertexAttribArray d.index, .glBindBuffer GL_ARRAY_BUFFER d.vbo,
   .glVertexAttribPointer d.index d.size d.type GL_FALSE 0 0]

/-- The call sequence of `create_vao` for the descriptors `ds`, `vao` being the
generated name. -/
def create_vao_calls (vao : GLuint) (ds : List AttribDesc) : List Call :=
  [.glGenVertexArrays 1 vao, .glBindVertexArray vao] ++ ds.flatMap fill_calls ++
    [.glBindVertexArray 0] ++ ds.map (fun d => Call.glDisableVertexAttribArray d.index)

/-- The call sequence of `create_vbo`, `vbo` being the generated name. -/
def create_vbo_calls (vbo : GLuint) (data : List Int) (data_bytes : Nat) (usage : GLenum) :
    List Call :=
  [.glGenBuffers 1 vbo, .glBindBuffer GL_ARRAY_BUFFER vbo,
   .glBufferData GL_ARRAY_BUFFER data_bytes data usage, .glBindBuffer GL_ARRAY_BUFFER 0]

/-- One iteration of the first loop of `create_vao`, on descriptor `d`. -/
def fillStep (s : GLState) (d : AttribDesc) : GLState :=
  glVertexAttribPointer d.index d.size d.type GL_FALSE 0 0
    (glBindBuffer GL_ARRAY_BUFFER d.vbo (glEnableVertexAttribArray d.index s))

/-- One iteration of the second loop of `create_vao`, on descriptor `d`. -/
def disableStep (s : GLState) (d : AttribDesc) : GLState :=
  glDisableVertexAttribArray d.index s

/-- The last descriptor of `ds` that names attribute `idx`. -/
def lastDesc (ds : List AttribDesc) (idx : GLuint) : Option AttribDesc :=
  ds.reverse.find? (fun d => d.index == idx)

/-- The layout `create_vao` describes for descriptor `d`. -/
def AttribDesc.layout (d : AttribDesc) : AttribLayout :=
  ⟨d.vbo, d.size, d.type, GL_FALSE, 0, 0⟩

/-- The calls every run of `init_gl` issues once GLEW is up: `glewInit`, then
`create_vbo` for the quad (buffer `b`), then `create_vao` for its one attribute
(vertex array `a`). -/
def init_head_calls (b a : GLuint) : List Call :=
  [.glewInit GLEW_OK] ++
    create_vbo_calls b quad_buffer (quad_buffer.length * sizeof_GLfloat) GL_STATIC_DRAW ++
    create_vao_calls a [⟨0, b, 3, GL_FLOAT⟩]

/-- The four location lookups at the end of a successful `init_gl`. -/
def uniform_calls (B : Backend) (p : GLuint) : List Call :=
  [.glGetUniformLocation p "time" (B.uniformLocation p "time"),
   .glGetUniformLocation p "mouse" (B.uniformLocation p "mouse"),
   .glGetUniformLocation p "mouse_pressed" (B.uniformLocation p "mouse_pressed"),
   .glGetUniformLocation p "res" (B.uniformLocation p "res")]

/-- The calls of a `compile_shader_program` run that returns 0, by the compile
that fails; `v` and `f` are the names of the vertex and the fragment shader. -/
def failed_program_calls (B : Backend) (srcs : List String) (n : Nat) (v f : GLuint) :
    List Call :=
  if B.compileOk GL_VERTEX_SHADER [vshader_src] = false then
    compile_fail_calls GL_VERTEX_SHADER v [vshader_src] 1
      (B.shaderLogLength GL_VERTEX_SHADER [vshader_src])
  else
    compile_ok_calls GL_VERTEX_SHADER v [vshader_src] 1 ++
      compile_fail_calls GL_FRAGMENT_SHADER f srcs n
        (B.shaderLogLength GL_FRAGMENT_SHADER (srcs.take n)) ++
      [.glDeleteShader v]

/-- The driver `B` for a program that does not declare the uniform `name`: the
lookup of `name` yields -1, every other answer of the driver is as before. -/
def Backend.hideUniform (B : Backend) (name : String) : Backend :=
  { B with uniformLocation := fun p nm => if nm = name then -1 else B.uniformLocation p nm }

/-! ## The quad as geometry -/

/-- The (x, y) components of vertex `i` of `quad_buffer`. -/
def quadVertex (i : Nat) : Int × Int :=
  (quad_buffer.getD (3 * i) 0, quad_buffer.getD (3 * i + 1) 0)

/-- The point (x, y) lies in the closed triangle with corners `A`, `B`, `C`:
it is a convex combination of the corners. -/
def InTriangle (A B C : Int × Int) (x y : ℝ) : Prop :=
  ∃ a b c : ℝ, 0 ≤ a ∧ 0 ≤ b ∧ 0 ≤ c ∧ a + b + c = 1 ∧
    x = a * (A.1 : ℝ) + b * (B.1 : ℝ) + c * (C.1 : ℝ) ∧
    y = a * (A.2 : ℝ) + b * (B.2 : ℝ) + c * (C.2 : ℝ)

/-- A state in which one full set of resources is already live: the state
after a successful `init_gl` on the sample driver. -/
def liveState : GLState :=
  (init_gl (sampleBackend 0 true true true) sampleSrcs 1 sampleRes GLState.empty).state

/-! # Lemmas -/

/-! ## The building blocks, by outcome -/

theorem compile_shader_eq (B : Backend) (t : GLenum) (srcs : List String) (n : Nat)
    (s : GLState) :
    compile_shader B t srcs n s =
      .returned (if B.compileOk t (srcs.take n) = true then B.newShaderName s t else 0)
       (s.afterCompile (B.newShaderName s t) t (srcs.take n) (B.compileOk t (srcs.take n))
         (if B.compileOk t (srcs.take n) = true then
            compile_ok_calls t (B.newShaderName s t) srcs n
          else
            compile_fail_calls t (B.newShaderName s t) srcs n
              (B.shaderLogLength t (srcs.take n)))) := by
  by_cases h : B.compileOk t (srcs.take n) = true <;>
  simp [compile_shader, glCreateShader, glShaderSource, glCompileShader, glGetShaderiv, malloc,
    glGetShaderInfoLog, fprintf_stderr, free, glDeleteShader, GLState.record, h, GL_FALSE,
    GL_TRUE, GL_COMPILE_STATUS, GL_INFO_LOG_LENGTH, compile_ok_calls, compile_fail_calls,
    GLState.afterCompile, Outcome.bind]

/-- State after the attach loop of `link_shader_program`. -/
theorem attach_loop_eq (program : GLuint) (shaders : List GLuint) (n : Nat) (s : GLState) :
    (List.range n).foldl (fun s i => glAttachShader program (shaders.getD i 0) s) s =
      { s with
        attachedShaders :=
          Function.update s.attachedShaders program
            (s.attachedShaders program ++ (List.range n).map (fun i => shaders.getD i 0))
        trace := s.trace ++
          (List.range n).map (fun i => Call.glAttachShader program (shaders.getD i 0)) } := by
  induction n with
  | zero => simp
  | succ k ih =>
    rw [List.range_succ, List.foldl_append, ih]
    simp [glAttachShader, List.range_succ]

/-- Reading an array of `l.length` elements front to back yields `l`. -/
theorem map_getD_range {α : Type} (l : List α) (d : α) :
    (List.range l.length).map (fun i => l.getD i d) = l := by
  apply List.ext_getElem
  · simp
  · intro i h1 h2
    simp [List.getD, List.getElem?_eq_getElem h2]

theorem link_shader_program_eq (B : Backend) (shaders : List GLuint) (s : GLState) :
    link_shader_program B shaders shaders.length s =
      if B.linkOk (shaders.map (fun h => (s.shaderType h, s.shaderSource h))) = true then
        .returned (B.newProgramName s)
          (s.afterLink (B.newProgramName s) shaders true
            (link_ok_calls (B.newProgramName s) shaders))
      else
        .undefined
          (s.afterLink (B.newProgramName s) shaders false
            (link_fault_calls (B.newProgramName s) shaders
              (B.programLogLength
                (shaders.map (fun h => (s.shaderType h, s.shaderSource h)))))) := by
  have hmap := map_getD_range shaders 0
  have hmap2 : (List.range shaders.length).map
      (fun i => Call.glAttachShader (B.newProgramName s) (shaders.getD i 0)) =
      shaders.map (Call.glAttachShader (B.newProgramName s)) := by
    conv_rhs => rw [← hmap]
    simp
  simp only [link_shader_program, attach_loop_eq, hmap, hmap2]
  by_cases h : B.linkOk (shaders.map (fun h => (s.shaderType h, s.shaderSource h))) = true
  · simp [glCreateProgram, glLinkProgram, glGetProgramiv, GLState.record, h,
      GL_FALSE, GL_TRUE, GL_LINK_STATUS, link_ok_calls, GLState.attachedUnits,
      GLState.afterLink]
    simpa using hmap2
  · by_cases hlen : 0 < B.programLogLength
        (shaders.map (fun h => (s.shaderType h, s.shaderSource h)))
    · simp [glCreateProgram, glLinkProgram, glGetProgramiv, glGetProgramInfoLog,
        fprintf_stderr, GLState.record, h, hlen, GL_FALSE, GL_TRUE, GL_LINK_STATUS,
        GL_INFO_LOG_LENGTH, link_fault_calls, GLState.attachedUnits, GLState.afterLink,
        Outcome.bind]
      simpa using hmap2
    · simp [glCreateProgram, glLinkProgram, glGetProgramiv, glGetProgramInfoLog,
        fprintf_stderr, GLState.record, h, hlen, GL_FALSE, GL_TRUE, GL_LINK_STATUS,
        GL_INFO_LOG_LENGTH, link_fault_calls, GLState.attachedUnits, GLState.afterLink,
        Outcome.bind]
      simpa using hmap2

theorem compile_shader_ok (B : Backend) (t : GLenum) (srcs : List String) (n : Nat)
    (s : GLState) (h : B.compileOk t (srcs.take n) = true) :
    compile_shader B t srcs n s =
      .returned (B.newShaderName s t)
       (s.afterCompile (B.newShaderName s t) t (srcs.take n) true
         (compile_ok_calls t (B.newShaderName s t) srcs n)) := by
  rw [compile_shader_eq]; simp [h]

theorem compile_shader_fail (B : Backend) (t : GLenum) (srcs : List String) (n : Nat)
    (s : GLState) (h : B.compileOk t (srcs.take n) = false) :
    compile_shader B t srcs n s =
      .returned 0
       (s.afterCompile (B.newShaderName s t) t (srcs.take n) false
         (compile_fail_calls t (B.newShaderName s t) srcs n
           (B.shaderLogLength t (srcs.take n)))) := by
  rw [compile_shader_eq]; simp [h]

theorem link_shader_program_ok (B : Backend) (shaders : List GLuint) (s : GLState)
    (h : B.linkOk (shaders.map (fun h => (s.shaderType h, s.shaderSource h))) = true) :
    link_shader_program B shaders shaders.length s =
      .returned (B.newProgramName s)
       (s.afterLink (B.newProgramName s) shaders true
         (link_ok_calls (B.newProgramName s) shaders)) := by
  rw [link_shader_program_eq]; simp [h]

/-- A failed link ends in undefined behaviour, with the program still live. -/
theorem link_shader_program_fail (B : Backend) (shaders : List GLuint) (s : GLState)
    (h : B.linkOk (shaders.map (fun h => (s.shaderType h, s.shaderSource h))) = false) :
    link_shader_program B shaders shaders.length s =
      .undefined
       (s.afterLink (B.newProgramName s) shaders false
         (link_fault_calls (B.newProgramName s) shaders
           (B.programLogLength
             (shaders.map (fun h => (s.shaderType h, s.shaderSource h)))))) := by
  rw [link_shader_program_eq]; simp [h]

/-- What a run of `compile_shader_program` does, by outcome.  `v`, `f` and `p`
are the names the driver gives to the vertex shader, the fragment shader and
the program (as far as the run gets to create them).  A failed link ends the
run in undefined behaviour with both shaders and the program live. -/
theorem compile_shader_program_cases (B : Backend) (hB : B.WellBehaved) (srcs : List String)
    (n : Nat) (s : GLState) :
    ∃ v f p : GLuint, v ≠ 0 ∧ f ≠ 0 ∧ p ≠ 0 ∧ v ∉ s.shaders ∧ f ∉ s.shaders ∧ v ≠ f ∧
      p ∉ s.programs ∧
      (compile_shader_program B srcs n s).state.buffers = s.buffers ∧
      (compile_shader_program B srcs n s).state.vertexArrays = s.vertexArrays ∧
      (B.compileOk GL_VERTEX_SHADER [vshader_src] = false →
        (compile_shader_program B srcs n s).value? = some 0 ∧
        (compile_shader_program B srcs n s).state.shaders = s.shaders ∧
        (compile_shader_program B srcs n s).state.programs = s.programs ∧
        (compile_shader_program B srcs n s).state.trace = s.trace ++
          compile_fail_calls GL_VERTEX_SHADER v [vshader_src] 1
            (B.shaderLogLength GL_VERTEX_SHADER [vshader_src])) ∧
      (B.compileOk GL_VERTEX_SHADER [vshader_src] = true →
        B.compileOk GL_FRAGMENT_SHADER (srcs.take n) = false →
        (compile_shader_program B srcs n s).value? = some 0 ∧
        (compile_shader_program B srcs n s).state.shaders = s.shaders ∧
        (compile_shader_program B srcs n s).state.programs = s.programs ∧
        (compile_shader_program B srcs n s).state.trace = s.trace ++
          (compile_ok_calls GL_VERTEX_SHADER v [vshader_src] 1 ++
           compile_fail_calls GL_FRAGMENT_SHADER f srcs n
             (B.shaderLogLength GL_FRAGMENT_SHADER (srcs.take n)) ++
           [.glDeleteShader v])) ∧
      (B.compileOk GL_VERTEX_SHADER [vshader_src] = true →
        B.compileOk GL_FRAGMENT_SHADER (srcs.take n) = true →
        B.linkOk (program_units srcs n) = false →
        (compile_shader_program B srcs n s).value? = none ∧
        (compile_shader_program B srcs n s).state.shaders = insert f (insert v s.shaders) ∧
        (compile_shader_program B srcs n s).state.programs = insert p s.programs ∧
        (compile_shader_program B srcs n s).state.trace = s.trace ++
          (compile_ok_calls GL_VERTEX_SHADER v [vshader_src] 1 ++
           compile_ok_calls GL_FRAGMENT_SHADER f srcs n ++
           link_fault_calls p [v, f] (B.programLogLength (program_units srcs n)))) ∧
      (B.compileOk GL_VERTEX_SHADER [vshader_src] = true →
        B.compileOk GL_FRAGMENT_SHADER (srcs.take n) = true →
        B.linkOk (program_units srcs n) = true →
        (compile_shader_program B srcs n s).value? = some p ∧
        (compile_shader_program B srcs n s).state.shaders = insert f (insert v s.shaders) ∧
        (compile_shader_program B srcs n s).state.programs = insert p s.programs ∧
        (compile_shader_program B srcs n s).state.linkStatus p = true ∧
        (compile_shader_program B srcs n s).state.attachedUnits p = program_units srcs n ∧
        (compile_shader_program B srcs n s).state.trace = s.trace ++
          (compile_ok_calls GL_VERTEX_SHADER v [vshader_src] 1 ++
           compile_ok_calls GL_FRAGMENT_SHADER f srcs n ++
           link_ok_calls p [v, f])) := by
  have hv0 := hB.shader_ne_zero s GL_VERTEX_SHADER
  have hvf := hB.shader_fresh s GL_VERTEX_SHADER
  generalize hvdef : B.newShaderName s GL_VERTEX_SHADER = v at hv0 hvf
  obtain ⟨s1, hs1⟩ : ∃ s1, s1 = s.afterCompile v GL_VERTEX_SHADER [vshader_src] true
      (compile_ok_calls GL_VERTEX_SHADER v [vshader_src] 1) := ⟨_, rfl⟩
  have hf0 := hB.shader_ne_zero s1 GL_FRAGMENT_SHADER
  have hff := hB.shader_fresh s1 GL_FRAGMENT_SHADER
  generalize hfdef : B.newShaderName s1 GL_FRAGMENT_SHADER = f at hf0 hff
  obtain ⟨s2, hs2⟩ : ∃ s2, s2 = s1.afterCompile f GL_FRAGMENT_SHADER (srcs.take n) true
      (compile_ok_calls GL_FRAGMENT_SHADER f srcs n) := ⟨_, rfl⟩
  have hp0 := hB.program_ne_zero s2
  have hpf := hB.program_fresh s2
  generalize hpdef : B.newProgramName s2 = p at hp0 hpf
  have hs1s : s1.shaders = insert v s.shaders := by simp [hs1, GLState.afterCompile]
  rw [hs1s, Finset.mem_insert, not_or] at hff
  have hs2p : s2.programs = s.programs := by simp [hs2, hs1, GLState.afterCompile]
  rw [hs2p] at hpf
  have hvf2 : v ≠ f := fun h => hff.1 h.symm
  have hunits : [v, f].map (fun h => (s2.shaderType h, s2.shaderSource h)) =
      program_units srcs n := by
    simp [hs2, hs1, GLState.afterCompile, program_units, Function.update_apply, hvf2]
  have e1 : B.compileOk GL_VERTEX_SHADER [vshader_src] = true →
      compile_shader B GL_VERTEX_SHADER [vshader_src] 1 s = .returned v s1 := by
    intro h
    rw [compile_shader_ok B _ _ _ _ (by simpa using h), hvdef, hs1]
    simp
  have e2 : B.compileOk GL_FRAGMENT_SHADER (srcs.take n) = true →
      compile_shader B GL_FRAGMENT_SHADER srcs n s1 = .returned f s2 := by
    intro h
    rw [compile_shader_ok B _ _ _ _ h, hfdef, hs2]
  have e3ok : B.linkOk (program_units srcs n) = true →
      link_shader_program B [v, f] 2 s2 =
        .returned p (s2.afterLink p [v, f] true (link_ok_calls p [v, f])) := by
    intro h
    have e := link_shader_program_ok B [v, f] s2 (by rw [hunits]; exact h)
    rw [hpdef] at e
    exact e
  have e3fail : B.linkOk (program_units srcs n) = false →
      link_shader_program B [v, f] 2 s2 =
        .undefined (s2.afterLink p [v, f] false
          (link_fault_calls p [v, f] (B.programLogLength (program_units srcs n)))) := by
    intro h
    have e := link_shader_program_fail B [v, f] s2 (by rw [hunits]; exact h)
    rw [hpdef, hunits] at e
    exact e
  have hfail1 := compile_shader_fail B GL_VERTEX_SHADER [vshader_src] 1 s
  have hfail2 := compile_shader_fail B GL_FRAGMENT_SHADER srcs n s1
  rw [hvdef] at hfail1
  rw [hfdef] at hfail2
  simp only [List.take_succ_cons, List.take_zero] at hfail1
  have hframe : (compile_shader_program B srcs n s).state.buffers = s.buffers ∧
      (compile_shader_program B srcs n s).state.vertexArrays = s.vertexArrays := by
    cases hv : B.compileOk GL_VERTEX_SHADER [vshader_src]
    · simp [compile_shader_program, hfail1 hv, GLState.afterCompile, Outcome.bind,
        Outcome.state]
    · cases hf : B.compileOk GL_FRAGMENT_SHADER (srcs.take n)
      · simp only [compile_shader_program, e1 hv, hfail2 hf, Outcome.bind]
        simp [hv0, glDeleteShader, GLState.afterCompile, hs1, Outcome.state]
      · cases hl : B.linkOk (program_units srcs n)
        · simp only [compile_shader_program, e1 hv, e2 hf, e3fail hl, Outcome.bind]
          simp [hv0, hf0, GLState.afterCompile, GLState.afterLink, hs1, hs2, Outcome.state]
        · simp only [compile_shader_program, e1 hv, e2 hf, e3ok hl, Outcome.bind]
          simp [hv0, hf0, hp0, GLState.afterCompile, GLState.afterLink, hs1, hs2,
            Outcome.state]
  refine ⟨v, f, p, hv0, hf0, hp0, hvf, hff.2, hvf2, hpf, hframe.1, hframe.2, ?_, ?_, ?_, ?_⟩
  · intro hv
    simp [compile_shader_program, hfail1 hv, GLState.afterCompile, hvf, Outcome.bind,
      Outcome.state, Outcome.value?]
  · intro hv hf
    simp only [compile_shader_program, e1 hv, hfail2 hf, Outcome.bind]
    simp [hv0, glDeleteShader, GLState.afterCompile, hs1, hvf, hff, Outcome.state,
      Outcome.value?]
  · intro hv hf hl
    simp only [compile_shader_program, e1 hv, e2 hf, e3fail hl, Outcome.bind]
    simp [hv0, hf0, GLState.afterCompile, GLState.afterLink, hs1, hs2, Outcome.state,
      Outcome.value?]
  · intro hv hf hl
    simp only [compile_shader_program, e1 hv, e2 hf, e3ok hl, Outcome.bind]
    simp [hv0, hf0, hp0, GLState.afterCompile, GLState.afterLink, hs1, hs2, Outcome.state,
      Outcome.value?, GLState.attachedUnits, program_units, Function.update_apply, hvf2]

theorem sup_succ_not_mem (S : Finset Nat) : S.sup id + 1 ∉ S := by
  intro h
  have h1 : id (S.sup id + 1) ≤ S.sup id := Finset.le_sup h
  simp only [id] at h1
  omega

theorem sampleBackend_wellBehaved (glew : GLenum) (a b c : Bool) :
    (sampleBackend glew a b c).WellBehaved where
  shader_ne_zero := fun _ _ => Nat.succ_ne_zero _
  shader_fresh := fun s _ => sup_succ_not_mem s.shaders
  program_ne_zero := fun _ => Nat.succ_ne_zero _
  program_fresh := fun s => sup_succ_not_mem s.programs
  buffer_ne_zero := fun _ => Nat.succ_ne_zero _
  buffer_fresh := fun s => sup_succ_not_mem s.buffers
  vertexArray_ne_zero := fun _ => Nat.succ_ne_zero _
  vertexArray_fresh := fun s => sup_succ_not_mem s.vertexArrays

theorem newCalls_of_trace (s s' : GLState) (l : List Call) (h : s'.trace = s.trace ++ l) :
    newCalls s s' = l := by
  simp [newCalls, h]

theorem createdShaders_attach (p : GLuint) (l : List GLuint) :
    createdShaders (l.map (Call.glAttachShader p)) = [] := by
  induction l with
  | nil => rfl
  | cons a l _ => simp [createdShaders]

theorem createdPrograms_attach (p : GLuint) (l : List GLuint) :
    createdPrograms (l.map (Call.glAttachShader p)) = [] := by
  induction l with
  | nil => rfl
  | cons a l _ => simp [createdPrograms]

theorem deletedShaders_attach (p : GLuint) (l : List GLuint) :
    deletedShaders (l.map (Call.glAttachShader p)) = [] := by
  induction l with
  | nil => rfl
  | cons a l _ => simp [deletedShaders]

theorem deletedPrograms_attach (p : GLuint) (l : List GLuint) :
    deletedPrograms (l.map (Call.glAttachShader p)) = [] := by
  induction l with
  | nil => rfl
  | cons a l _ => simp [deletedPrograms]

theorem createdShaders_append (a b : List Call) :
    createdShaders (a ++ b) = createdShaders a ++ createdShaders b :=
  List.filterMap_append _ _ _

theorem createdPrograms_append (a b : List Call) :
    createdPrograms (a ++ b) = createdPrograms a ++ createdPrograms b :=
  List.filterMap_append _ _ _

theorem deletedShaders_append (a b : List Call) :
    deletedShaders (a ++ b) = deletedShaders a ++ deletedShaders b :=
  List.filterMap_append _ _ _

theorem deletedPrograms_append (a b : List Call) :
    deletedPrograms (a ++ b) = deletedPrograms a ++ deletedPrograms b :=
  List.filterMap_append _ _ _

theorem deletedBuffers_append (a b : List Call) :
    deletedBuffers (a ++ b) = deletedBuffers a ++ deletedBuffers b :=
  List.filterMap_append _ _ _

theorem deletedVertexArrays_append (a b : List Call) :
    deletedVertexArrays (a ++ b) = deletedVertexArrays a ++ deletedVertexArrays b :=
  List.filterMap_append _ _ _

theorem Outcome.eq_returned {α : Type} (o : Outcome α) (a : α) (h : o.value? = some a) :
    o = .returned a o.state := by
  cases o with
  | returned b t => simp [Outcome.value?] at h; simp [Outcome.state, h]
  | undefined t => simp [Outcome.value?] at h

theorem Outcome.eq_undefined {α : Type} (o : Outcome α) (h : o.value? = none) :
    o = .undefined o.state := by
  cases o with
  | returned b t => simp [Outcome.value?] at h
  | undefined t => simp [Outcome.state]

theorem compile_ok_calls_read (t : GLenum) (v : GLuint) (srcs : List String) (n : Nat) :
    createdShaders (compile_ok_calls t v srcs n) = [v] ∧
    createdPrograms (compile_ok_calls t v srcs n) = [] ∧
    deletedShaders (compile_ok_calls t v srcs n) = [] ∧
    deletedPrograms (compile_ok_calls t v srcs n) = [] ∧
    deletedBuffers (compile_ok_calls t v srcs n) = [] ∧
    deletedVertexArrays (compile_ok_calls t v srcs n) = [] := by
  simp [compile_ok_calls, createdShaders, createdPrograms, deletedShaders, deletedPrograms,
    deletedBuffers, deletedVertexArrays]

theorem link_ok_calls_read (p : GLuint) (l : List GLuint) :
    createdShaders (link_ok_calls p l) = [] ∧
    createdPrograms (link_ok_calls p l) = [p] ∧
    deletedShaders (link_ok_calls p l) = [] ∧
    deletedPrograms (link_ok_calls p l) = [] ∧
    deletedBuffers (link_ok_calls p l) = [] ∧
    deletedVertexArrays (link_ok_calls p l) = [] := by
  refine ⟨?_, ?_, ?_, ?_, ?_, ?_⟩
  · simp only [link_ok_calls, createdShaders_append, createdShaders_attach]
    simp [createdShaders]
  · simp only [link_ok_calls, createdPrograms_append, createdPrograms_attach]
    simp [createdPrograms]
  · simp only [link_ok_calls, deletedShaders_append, deletedShaders_attach]
    simp [deletedShaders]
  · simp only [link_ok_calls, deletedPrograms_append, deletedPrograms_attach]
    simp [deletedPrograms]
  · simp only [link_ok_calls, deletedBuffers_append]
    simp [deletedBuffers, List.filterMap_map]
  · simp only [link_ok_calls, deletedVertexArrays_append]
    simp [deletedVertexArrays, List.filterMap_map]

/-! ## The loops of `create_vao` -/

/-- A loop over the indices of an array is a fold over its elements. -/
theorem foldl_range_eq_foldl {α σ : Type} (l : List α) (g : σ → Nat → σ) (h : σ → α → σ)
    (hg : ∀ (s : σ) (i : Nat) (hi : i < l.length), g s i = h s (l.get ⟨i, hi⟩)) (s : σ) :
    (List.range l.length).foldl g s = l.foldl h s := by
  induction l using List.reverseRecOn with
  | nil => simp
  | append_singleton l a ih =>
    have hlen : (l ++ [a]).length = l.length + 1 := by simp
    rw [hlen, List.range_succ, List.foldl_append, List.foldl_append]
    have ih2 := ih (fun s i hi => by
      have := hg s i (by simp; omega)
      simpa [List.getElem_append_left, hi] using this)
    rw [ih2]
    have hlast := hg (l.foldl h s) l.length (by simp)
    simpa using hlast

theorem getD_map_of_lt {α β : Type} (l : List α) (f : α → β) (d : β) (i : Nat)
    (hi : i < l.length) : (l.map f).getD i d = f (l.get ⟨i, hi⟩) := by
  simp [List.getD, List.getElem?_eq_getElem hi]

theorem fill_loop_eq (ds : List AttribDesc) (s : GLState) :
    (List.range ds.length).foldl
      (fun s i =>
        let s := glEnableVertexAttribArray ((ds.map (fun d => d.index)).getD i 0) s
        let s := glBindBuffer GL_ARRAY_BUFFER ((ds.map (fun d => d.vbo)).getD i 0) s
        glVertexAttribPointer ((ds.map (fun d => d.index)).getD i 0)
          ((ds.map (fun d => d.size)).getD i 0) ((ds.map (fun d => d.type)).getD i 0)
          GL_FALSE 0 0 s) s
      = ds.foldl fillStep s := by
  apply foldl_range_eq_foldl
  intro s i hi
  simp only [getD_map_of_lt _ _ _ i hi, fillStep]

theorem disable_loop_eq (ds : List AttribDesc) (s : GLState) :
    (List.range ds.length).foldl
      (fun s i => glDisableVertexAttribArray ((ds.map (fun d => d.index)).getD i 0) s) s
      = ds.foldl disableStep s := by
  apply foldl_range_eq_foldl
  intro s i hi
  simp only [getD_map_of_lt _ _ _ i hi, disableStep]

/-- What the first loop of `create_vao` leaves untouched, and its calls. -/
theorem fill_fold_frame (ds : List AttribDesc) (s : GLState) :
    (ds.foldl fillStep s).vertexArrayBinding = s.vertexArrayBinding ∧
    (ds.foldl fillStep s).buffers = s.buffers ∧
    (ds.foldl fillStep s).vertexArrays = s.vertexArrays ∧
    (ds.foldl fillStep s).shaders = s.shaders ∧
    (ds.foldl fillStep s).programs = s.programs ∧
    (ds.foldl fillStep s).trace = s.trace ++ ds.flatMap fill_calls := by
  induction ds using List.reverseRecOn with
  | nil => simp
  | append_singleton ds d ih =>
    obtain ⟨h1, h2, h3, h4, h5, h6⟩ := ih
    rw [List.foldl_append]
    simp [fillStep, glVertexAttribPointer, glBindBuffer, glEnableVertexAttribArray, h1, h2, h3,
      h4, h5, h6, fill_calls, List.flatMap_append]

/-- What the first loop of `create_vao` writes into the bound vertex array. -/
theorem fill_fold_attrib (ds : List AttribDesc) (s : GLState) (idx : GLuint) :
    (ds.foldl fillStep s).attribEnabled s.vertexArrayBinding idx =
      (if idx ∈ ds.map (fun d => d.index) then true
       else s.attribEnabled s.vertexArrayBinding idx) ∧
    (ds.foldl fillStep s).attribLayout s.vertexArrayBinding idx =
      (match lastDesc ds idx with
       | some d => some d.layout
       | none => s.attribLayout s.vertexArrayBinding idx) := by
  induction ds using List.reverseRecOn with
  | nil => simp [lastDesc]
  | append_singleton ds d ih =>
    obtain ⟨h1, h2⟩ := ih
    have hb := (fill_fold_frame ds s).1
    rw [List.foldl_append]
    by_cases hd : d.index = idx
    · subst hd
      simp [fillStep, glVertexAttribPointer, glBindBuffer, glEnableVertexAttribArray, hb,
        lastDesc, AttribDesc.layout]
    · have hd2 : idx ≠ d.index := fun h => hd h.symm
      constructor
      · simp [fillStep, glVertexAttribPointer, glBindBuffer, glEnableVertexAttribArray, hb,
          Function.update_apply, hd2, h1]
      · have hl : lastDesc (ds ++ [d]) idx = lastDesc ds idx := by
          simp [lastDesc, List.find?_cons, hd]
        rw [hl, ← h2]
        simp [fillStep, glVertexAttribPointer, glBindBuffer, glEnableVertexAttribArray, hb,
          Function.update_apply, hd2]

/-- The second loop of `create_vao` touches only the enable flags of the bound
vertex array. -/
theorem disable_fold_frame (ds : List AttribDesc) (s : GLState) :
    (ds.foldl disableStep s).vertexArrayBinding =
      s.vertexArrayBinding ∧
    (ds.foldl disableStep s).buffers = s.buffers ∧
    (ds.foldl disableStep s).vertexArrays =
      s.vertexArrays ∧
    (ds.foldl disableStep s).shaders = s.shaders ∧
    (ds.foldl disableStep s).programs = s.programs ∧
    (ds.foldl disableStep s).attribLayout =
      s.attribLayout ∧
    (ds.foldl disableStep s).trace =
      s.trace ++ ds.map (fun d => Call.glDisableVertexAttribArray d.index) ∧
    (∀ a, a ≠ s.vertexArrayBinding →
      (ds.foldl disableStep s).attribEnabled a =
        s.attribEnabled a) := by
  induction ds using List.reverseRecOn with
  | nil => simp
  | append_singleton ds d ih =>
    obtain ⟨h1, h2, h3, h4, h5, h6, h7, h8⟩ := ih
    rw [List.foldl_append]
    refine ⟨?_, ?_, ?_, ?_, ?_, ?_, ?_, ?_⟩
    · simp [disableStep, glDisableVertexAttribArray, h1]
    · simp [disableStep, glDisableVertexAttribArray, h2]
    · simp [disableStep, glDisableVertexAttribArray, h3]
    · simp [disableStep, glDisableVertexAttribArray, h4]
    · simp [disableStep, glDisableVertexAttribArray, h5]
    · simp [disableStep, glDisableVertexAttribArray, h6]
    · simp [disableStep, glDisableVertexAttribArray, h7]
    · intro a ha
      simp [disableStep, glDisableVertexAttribArray, h1, Function.update_apply, ha, h8 a ha]

/-- The result of `create_vao` on the arrays read off a descriptor list. -/
theorem create_vao_facts (B : Backend) (ds : List AttribDesc) (s : GLState) :
    (create_vao B (ds.map (fun d => d.index)) (ds.map (fun d => d.vbo))
      (ds.map (fun d => d.size)) (ds.map (fun d => d.type)) ds.length s).1 =
      B.newVertexArrayName s ∧
    (create_vao B (ds.map (fun d => d.index)) (ds.map (fun d => d.vbo))
      (ds.map (fun d => d.size)) (ds.map (fun d => d.type)) ds.length s).2.buffers =
      s.buffers ∧
    (create_vao B (ds.map (fun d => d.index)) (ds.map (fun d => d.vbo))
      (ds.map (fun d => d.size)) (ds.map (fun d => d.type)) ds.length s).2.vertexArrays =
      insert (B.newVertexArrayName s) s.vertexArrays ∧
    (create_vao B (ds.map (fun d => d.index)) (ds.map (fun d => d.vbo))
      (ds.map (fun d => d.size)) (ds.map (fun d => d.type)) ds.length s).2.shaders =
      s.shaders ∧
    (create_vao B (ds.map (fun d => d.index)) (ds.map (fun d => d.vbo))
      (ds.map (fun d => d.size)) (ds.map (fun d => d.type)) ds.length s).2.programs =
      s.programs ∧
    (create_vao B (ds.map (fun d => d.index)) (ds.map (fun d => d.vbo))
      (ds.map (fun d => d.size)) (ds.map (fun d => d.type)) ds.length s).2.trace =
      s.trace ++ create_vao_calls (B.newVertexArrayName s) ds := by
  simp only [create_vao, fill_loop_eq, disable_loop_eq]
  refine ⟨rfl, ?_, ?_, ?_, ?_, ?_⟩
  · rw [(disable_fold_frame _ _).2.1]
    simp [glBindVertexArray, (fill_fold_frame _ _).2.1, glGenVertexArrays]
  · rw [(disable_fold_frame _ _).2.2.1]
    simp [glBindVertexArray, (fill_fold_frame _ _).2.2.1, glGenVertexArrays]
  · rw [(disable_fold_frame _ _).2.2.2.1]
    simp [glBindVertexArray, (fill_fold_frame _ _).2.2.2.1, glGenVertexArrays]
  · rw [(disable_fold_frame _ _).2.2.2.2.1]
    simp [glBindVertexArray, (fill_fold_frame _ _).2.2.2.2.1, glGenVertexArrays]
  · rw [(disable_fold_frame _ _).2.2.2.2.2.2.1]
    simp [glBindVertexArray, (fill_fold_frame _ _).2.2.2.2.2, glGenVertexArrays,
      create_vao_calls]

theorem lastDesc_of_mem (ds : List AttribDesc) (d : AttribDesc) (hd : d ∈ ds) :
    ∃ d', d' ∈ ds ∧ d'.index = d.index ∧ lastDesc ds d.index = some d' := by
  cases h : lastDesc ds d.index with
  | none =>
    simp only [lastDesc, List.find?_eq_none] at h
    have := h d (by simpa using hd)
    simp at this
  | some d' =>
    refine ⟨d', ?_, ?_, rfl⟩
    · have := List.mem_of_find?_eq_some h
      simpa using this
    · have := List.find?_some h
      simpa using this

/-- The attribute state of the vertex array returned by `create_vao`. -/
theorem create_vao_attribs (B : Backend) (ds : List AttribDesc) (s : GLState)
    (hvao : B.newVertexArrayName s ≠ 0) (idx : GLuint) :
    (create_vao B (ds.map (fun d => d.index)) (ds.map (fun d => d.vbo))
      (ds.map (fun d => d.size)) (ds.map (fun d => d.type)) ds.length s).2.attribEnabled
        (B.newVertexArrayName s) idx =
      (if idx ∈ ds.map (fun d => d.index) then true else false) ∧
    (create_vao B (ds.map (fun d => d.index)) (ds.map (fun d => d.vbo))
      (ds.map (fun d => d.size)) (ds.map (fun d => d.type)) ds.length s).2.attribLayout
        (B.newVertexArrayName s) idx =
      (lastDesc ds idx).map AttribDesc.layout := by
  simp only [create_vao, fill_loop_eq, disable_loop_eq]
  obtain ⟨sb, hsb⟩ : ∃ sb, sb = glBindVertexArray (glGenVertexArrays B 1 s).1
      (glGenVertexArrays B 1 s).2 := ⟨_, rfl⟩
  have hbind : sb.vertexArrayBinding = B.newVertexArrayName s := by
    simp [hsb, glBindVertexArray, glGenVertexArrays]
  have hen : sb.attribEnabled (B.newVertexArrayName s) idx = false := by
    simp [hsb, glBindVertexArray, glGenVertexArrays]
  have hlay : sb.attribLayout (B.newVertexArrayName s) idx = none := by
    simp [hsb, glBindVertexArray, glGenVertexArrays]
  have hfill := fill_fold_attrib ds sb idx
  rw [hbind, hen, hlay] at hfill
  have hdis := disable_fold_frame ds (glBindVertexArray 0 (ds.foldl fillStep sb))
  have h0 : (glBindVertexArray 0 (ds.foldl fillStep sb)).vertexArrayBinding = 0 := rfl
  rw [← hsb]
  constructor
  · rw [hdis.2.2.2.2.2.2.2 _ (by rw [h0]; exact hvao)]
    exact hfill.1
  · rw [hdis.2.2.2.2.2.1]
    show (ds.foldl fillStep sb).attribLayout (B.newVertexArrayName s) idx = _
    rw [hfill.2]
    cases lastDesc ds idx <;> rfl

/-! ## `init_gl`, by outcome -/

theorem init_glew_fail (B : Backend) (s : GLState) (h : B.glewInitResult ≠ GLEW_OK) :
    init_glew B s =
      (1, { s with
            glewExperimental := 1
            trace := s.trace ++ [.glewInit B.glewInitResult,
              .glewGetErrorString B.glewInitResult, .fprintf_stderr_glew B.glewInitResult] }) := by
  simp [init_glew, glewInit, GLState.record, h]

theorem init_glew_ok (B : Backend) (s : GLState) (h : B.glewInitResult = GLEW_OK) :
    init_glew B s =
      (0, { s with glewExperimental := 1, trace := s.trace ++ [.glewInit GLEW_OK] }) := by
  simp [init_glew, glewInit, GLState.record, h]

/-- What a run of `init_gl` does, by outcome.  `b`, `a`, `v`, `f`, `p` are the
names the driver gives to the buffer, the vertex array, the two shaders and the
program (as far as the run gets to create them).  A failed link ends the run in
undefined behaviour with all five objects live. -/
theorem init_gl_cases (B : Backend) (hB : B.WellBehaved) (srcs : List String) (n : Nat)
    (res : gl_res) (s : GLState) :
    ∃ b a v f p : GLuint, b ≠ 0 ∧ a ≠ 0 ∧ p ≠ 0 ∧ b ∉ s.buffers ∧ a ∉ s.vertexArrays ∧
      v ∉ s.shaders ∧ f ∉ s.shaders ∧ v ≠ f ∧ p ∉ s.programs ∧
      (B.glewInitResult ≠ GLEW_OK →
        (init_gl B srcs n res s).value? = some (1, res) ∧
        (init_gl B srcs n res s).state.buffers = s.buffers ∧
        (init_gl B srcs n res s).state.vertexArrays = s.vertexArrays ∧
        (init_gl B srcs n res s).state.shaders = s.shaders ∧
        (init_gl B srcs n res s).state.programs = s.programs ∧
        (init_gl B srcs n res s).state.trace = s.trace ++
          [.glewInit B.glewInitResult, .glewGetErrorString B.glewInitResult,
           .fprintf_stderr_glew B.glewInitResult]) ∧
      (B.glewInitResult = GLEW_OK →
        (B.compileOk GL_VERTEX_SHADER [vshader_src] = false ∨
         B.compileOk GL_FRAGMENT_SHADER (srcs.take n) = false) →
        (init_gl B srcs n res s).value? =
          some (1, { res with quad_vbo := b, quad_vao := a, shader_program := 0 }) ∧
        (init_gl B srcs n res s).state.buffers = s.buffers ∧
        (init_gl B srcs n res s).state.vertexArrays = s.vertexArrays ∧
        (init_gl B srcs n res s).state.shaders = s.shaders ∧
        (init_gl B srcs n res s).state.programs = s.programs ∧
        (init_gl B srcs n res s).state.trace = s.trace ++
          (init_head_calls b a ++ failed_program_calls B srcs n v f ++
           [.glDeleteBuffers 1 b, .glDeleteVertexArrays 1 a])) ∧
      (B.glewInitResult = GLEW_OK →
        B.compileOk GL_VERTEX_SHADER [vshader_src] = true →
        B.compileOk GL_FRAGMENT_SHADER (srcs.take n) = true →
        B.linkOk (program_units srcs n) = false →
        (init_gl B srcs n res s).value? = none ∧
        (init_gl B srcs n res s).state.buffers = insert b s.buffers ∧
        (init_gl B srcs n res s).state.vertexArrays = insert a s.vertexArrays ∧
        (init_gl B srcs n res s).state.shaders = insert f (insert v s.shaders) ∧
        (init_gl B srcs n res s).state.programs = insert p s.programs ∧
        (init_gl B srcs n res s).state.trace = s.trace ++
          (init_head_calls b a ++
           (compile_ok_calls GL_VERTEX_SHADER v [vshader_src] 1 ++
            compile_ok_calls GL_FRAGMENT_SHADER f srcs n ++
            link_fault_calls p [v, f] (B.programLogLength (program_units srcs n))))) ∧
      (B.glewInitResult = GLEW_OK →
        B.compileOk GL_VERTEX_SHADER [vshader_src] = true →
        B.compileOk GL_FRAGMENT_SHADER (srcs.take n) = true →
        B.linkOk (program_units srcs n) = true →
        (init_gl B srcs n res s).value? =
          some (0, ⟨b, a, p, B.uniformLocation p "time", B.uniformLocation p "mouse",
            B.uniformLocation p "mouse_pressed", B.uniformLocation p "res"⟩) ∧
        (init_gl B srcs n res s).state.buffers = insert b s.buffers ∧
        (init_gl B srcs n res s).state.vertexArrays = insert a s.vertexArrays ∧
        (init_gl B srcs n res s).state.shaders = insert f (insert v s.shaders) ∧
        (init_gl B srcs n res s).state.programs = insert p s.programs ∧
        (init_gl B srcs n res s).state.linkStatus p = true ∧
        (init_gl B srcs n res s).state.attachedUnits p = program_units srcs n ∧
        (init_gl B srcs n res s).state.trace = s.trace ++
          (init_head_calls b a ++
           (compile_ok_calls GL_VERTEX_SHADER v [vshader_src] 1 ++
            compile_ok_calls GL_FRAGMENT_SHADER f srcs n ++ link_ok_calls p [v, f]) ++
           uniform_calls B p)) := by
  obtain ⟨s0, hs0⟩ : ∃ s0 : GLState,
      s0 = { s with glewExperimental := 1, trace := s.trace ++ [.glewInit GLEW_OK] } := ⟨_, rfl⟩
  have hb0 := hB.buffer_ne_zero s0
  have hbf := hB.buffer_fresh s0
  generalize hbdef : B.newBufferName s0 = b at hb0 hbf
  obtain ⟨s1, hs1⟩ : ∃ s1, s1 =
      (create_vbo B quad_buffer (quad_buffer.length * sizeof_GLfloat) GL_STATIC_DRAW s0).2 :=
    ⟨_, rfl⟩
  have hvbo : create_vbo B quad_buffer (quad_buffer.length * sizeof_GLfloat) GL_STATIC_DRAW s0 =
      (b, s1) := by
    rw [hs1, ← hbdef]; rfl
  have h0b : s0.buffers = s.buffers := by rw [hs0]
  have h0a : s0.vertexArrays = s.vertexArrays := by rw [hs0]
  have h0s : s0.shaders = s.shaders := by rw [hs0]
  have h0p : s0.programs = s.programs := by rw [hs0]
  have h0t : s0.trace = s.trace ++ [.glewInit GLEW_OK] := by rw [hs0]
  rw [h0b] at hbf
  have hs1b : s1.buffers = insert b s.buffers := by
    simp [hs1, create_vbo, glGenBuffers, glBindBuffer, glBufferData, hbdef, h0b]
  have hs1a : s1.vertexArrays = s.vertexArrays := by
    simp [hs1, create_vbo, glGenBuffers, glBindBuffer, glBufferData, h0a]
  have hs1s : s1.shaders = s.shaders := by
    simp [hs1, create_vbo, glGenBuffers, glBindBuffer, glBufferData, h0s]
  have hs1p : s1.programs = s.programs := by
    simp [hs1, create_vbo, glGenBuffers, glBindBuffer, glBufferData, h0p]
  have hs1t : s1.trace = s.trace ++ ([.glewInit GLEW_OK] ++
      create_vbo_calls b quad_buffer (quad_buffer.length * sizeof_GLfloat) GL_STATIC_DRAW) := by
    simp [hs1, create_vbo, glGenBuffers, glBindBuffer, glBufferData, h0t, hbdef,
      create_vbo_calls]
  have ha0 := hB.vertexArray_ne_zero s1
  have haf := hB.vertexArray_fresh s1
  have hvaof := create_vao_facts B [⟨0, b, 3, GL_FLOAT⟩] s1
  generalize hadef : B.newVertexArrayName s1 = a at ha0 haf hvaof
  rw [hs1a] at haf
  obtain ⟨s2, hs2⟩ : ∃ s2, s2 = (create_vao B [0] [b] [3] [GL_FLOAT] 1 s1).2 := ⟨_, rfl⟩
  simp only [List.map_cons, List.map_nil, List.length_cons, List.length_nil, zero_add,
    ← hs2] at hvaof
  obtain ⟨hv1, hv2, hv3, hv4, hv5, hv6⟩ := hvaof
  have hvao : create_vao B [0] [b] [3] [GL_FLOAT] 1 s1 = (a, s2) := by
    rw [hs2, ← hv1]
  rw [hs1b] at hv2
  rw [hs1a] at hv3
  rw [hs1s] at hv4
  rw [hs1p] at hv5
  have hhead : s2.trace = s.trace ++ init_head_calls b a := by
    rw [hv6, hs1t, init_head_calls, List.append_assoc]
  obtain ⟨v, f, p, hv0, hf0, hp0, hvf, hff, hvf2, hpf, hc1, hc2, c1, c2, c3, c4⟩ :=
    compile_shader_program_cases B hB srcs n s2
  rw [hv4] at hvf hff
  rw [hv5] at hpf
  obtain ⟨s3, hs3⟩ : ∃ s3, s3 = (compile_shader_program B srcs n s2).state := ⟨_, rfl⟩
  rw [← hs3, hv2] at hc1
  rw [← hs3, hv3] at hc2
  rw [← hs3, hv4, hv5, hhead] at c1 c2 c3 c4
  have hglew : B.glewInitResult = GLEW_OK → init_glew B s = (0, s0) := by
    intro hg
    rw [init_glew_ok B s hg, hs0]
  have hret : ∀ r, (compile_shader_program B srcs n s2).value? = some r →
      compile_shader_program B srcs n s2 = .returned r s3 := by
    intro r h
    rw [hs3]
    exact Outcome.eq_returned _ _ h
  have hfailcase : B.glewInitResult = GLEW_OK →
      (compile_shader_program B srcs n s2).value? = some 0 →
      (init_gl B srcs n res s).value? =
        some (1, { res with quad_vbo := b, quad_vao := a, shader_program := 0 }) ∧
      (init_gl B srcs n res s).state.buffers = s.buffers ∧
      (init_gl B srcs n res s).state.vertexArrays = s.vertexArrays ∧
      (init_gl B srcs n res s).state.shaders = s3.shaders ∧
      (init_gl B srcs n res s).state.programs = s3.programs ∧
      (init_gl B srcs n res s).state.trace =
        s3.trace ++ [.glDeleteBuffers 1 b, .glDeleteVertexArrays 1 a] := by
    intro hg hr
    simp only [init_gl, hglew hg, hvbo, hvao, hret 0 hr, Outcome.bind]
    simp [glDeleteBuffers, glDeleteVertexArrays, hc1, hc2, hbf, haf, Outcome.value?,
      Outcome.state]
  refine ⟨b, a, v, f, p, hb0, ha0, hp0, hbf, haf, hvf, hff, hvf2, hpf, ?_, ?_, ?_, ?_⟩
  · intro hg
    simp [init_gl, init_glew_fail B s hg, Outcome.value?, Outcome.state]
  · intro hg hfail
    have hr : (compile_shader_program B srcs n s2).value? = some 0 ∧
        s3.shaders = s.shaders ∧ s3.programs = s.programs ∧
        s3.trace = s.trace ++ (init_head_calls b a ++ failed_program_calls B srcs n v f) := by
      cases hv : B.compileOk GL_VERTEX_SHADER [vshader_src]
      · refine ⟨(c1 hv).1, (c1 hv).2.1, (c1 hv).2.2.1, ?_⟩
        rw [(c1 hv).2.2.2]
        simp only [failed_program_calls, hv, if_true, List.append_assoc]
      · cases hf : B.compileOk GL_FRAGMENT_SHADER (srcs.take n)
        · refine ⟨(c2 hv hf).1, (c2 hv hf).2.1, (c2 hv hf).2.2.1, ?_⟩
          rw [(c2 hv hf).2.2.2]
          simp [failed_program_calls, hv, List.append_assoc]
        · simp [hv, hf] at hfail
    obtain ⟨h1, h2, h3, h4, h5, h6⟩ := hfailcase hg hr.1
    refine ⟨h1, h2, h3, h4.trans hr.2.1, h5.trans hr.2.2.1, ?_⟩
    rw [h6, hr.2.2.2]
    simp only [List.append_assoc]
  · intro hg hv hf hl
    obtain ⟨e1, e2, e3, e4⟩ := c3 hv hf hl
    have hu : compile_shader_program B srcs n s2 = .undefined s3 := by
      rw [hs3]
      exact Outcome.eq_undefined _ e1
    simp only [init_gl, hglew hg, hvbo, hvao, hu, Outcome.bind]
    simp [Outcome.value?, Outcome.state, hc1, hc2, e2, e3, e4]
  · intro hg hv hf hl
    obtain ⟨e1, e2, e3, e4, e5, e6⟩ := c4 hv hf hl
    simp only [init_gl, hglew hg, hvbo, hvao, hret p e1, Outcome.bind]
    simp [hp0, glGetUniformLocation, GLState.record, hc1, hc2, e2, e3, e4, e6, uniform_calls,
      Outcome.value?, Outcome.state]
    simpa [GLState.attachedUnits] using e5

theorem compile_shader_trace (B : Backend) (t : GLenum) (srcs : List String) (n : Nat)
    (s : GLState) : ∃ X, (compile_shader B t srcs n s).state.trace = s.trace ++ X := by
  rw [compile_shader_eq]
  exact ⟨_, rfl⟩

theorem link_shader_program_trace (B : Backend) (shaders : List GLuint) (s : GLState) :
    ∃ X, (link_shader_program B shaders shaders.length s).state.trace = s.trace ++ X := by
  rw [link_shader_program_eq]
  split_ifs <;> exact ⟨_, rfl⟩

/-- Whatever the driver does, `compile_shader_program` only appends to the trace. -/
theorem compile_shader_program_trace (B : Backend) (srcs : List String) (n : Nat)
    (s : GLState) : ∃ X, (compile_shader_program B srcs n s).state.trace = s.trace ++ X := by
  obtain ⟨X1, h1⟩ := compile_shader_trace B GL_VERTEX_SHADER [vshader_src] 1 s
  rcases e1 : compile_shader B GL_VERTEX_SHADER [vshader_src] 1 s with ⟨v, s1⟩ | ⟨s1⟩
  · rw [e1] at h1
    simp only [Outcome.state] at h1
    by_cases hv : v = 0
    · refine ⟨X1, ?_⟩
      simp [compile_shader_program, e1, Outcome.bind, hv, Outcome.state, h1]
    · obtain ⟨X2, h2⟩ := compile_shader_trace B GL_FRAGMENT_SHADER srcs n s1
      rcases e2 : compile_shader B GL_FRAGMENT_SHADER srcs n s1 with ⟨f, s2⟩ | ⟨s2⟩
      · rw [e2] at h2
        simp only [Outcome.state] at h2
        by_cases hf : f = 0
        · refine ⟨X1 ++ X2 ++ [.glDeleteShader v], ?_⟩
          simp [compile_shader_program, e1, e2, Outcome.bind, hv, hf, Outcome.state, h1, h2,
            glDeleteShader]
        · obtain ⟨X3, h3⟩ := link_shader_program_trace B [v, f] s2
          simp only [List.length_cons, List.length_nil, zero_add, Nat.reduceAdd] at h3
          rcases e3 : link_shader_program B [v, f] 2 s2 with ⟨p, s3⟩ | ⟨s3⟩
          · rw [e3] at h3
            simp only [Outcome.state] at h3
            by_cases hp : p = 0
            · refine ⟨X1 ++ X2 ++ X3 ++ [.glDeleteShader v, .glDeleteShader f], ?_⟩
              simp [compile_shader_program, e1, e2, e3, Outcome.bind, hv, hf, hp,
                Outcome.state, h1, h2, h3, glDeleteShader]
            · refine ⟨X1 ++ X2 ++ X3, ?_⟩
              simp [compile_shader_program, e1, e2, e3, Outcome.bind, hv, hf, hp,
                Outcome.state, h1, h2, h3]
          · rw [e3] at h3
            simp only [Outcome.state] at h3
            refine ⟨X1 ++ X2 ++ X3, ?_⟩
            simp [compile_shader_program, e1, e2, e3, Outcome.bind, hv, hf, Outcome.state,
              h1, h2, h3]
      · rw [e2] at h2
        simp only [Outcome.state] at h2
        refine ⟨X1 ++ X2, ?_⟩
        simp [compile_shader_program, e1, e2, Outcome.bind, hv, Outcome.state, h1, h2]
  · rw [e1] at h1
    simp only [Outcome.state] at h1
    refine ⟨X1, ?_⟩
    simp [compile_shader_program, e1, Outcome.bind, Outcome.state, h1]

/-- With GLEW up, the trace of `init_gl` starts with `glewInit`, the calls of
`create_vbo` and the calls of `create_vao` for one 3-float attribute 0, however
the run ends. -/
theorem init_gl_trace_head (B : Backend) (srcs : List String) (n : Nat) (res : gl_res)
    (s : GLState) (hg : B.glewInitResult = GLEW_OK) :
    ∃ b a rest,
      (init_gl B srcs n res s).state.trace = s.trace ++ (init_head_calls b a ++ rest) := by
  obtain ⟨s0, hs0⟩ : ∃ s0 : GLState,
      s0 = { s with glewExperimental := 1, trace := s.trace ++ [.glewInit GLEW_OK] } := ⟨_, rfl⟩
  have hglew : init_glew B s = (0, s0) := by rw [init_glew_ok B s hg, hs0]
  have h0t : s0.trace = s.trace ++ [.glewInit GLEW_OK] := by rw [hs0]
  rcases hvbo : create_vbo B quad_buffer (quad_buffer.length * sizeof_GLfloat) GL_STATIC_DRAW s0
    with ⟨b, s1⟩
  have hs1t : s1.trace = s0.trace ++
      create_vbo_calls b quad_buffer (quad_buffer.length * sizeof_GLfloat) GL_STATIC_DRAW := by
    have h1 := congrArg Prod.fst hvbo
    have h2 := congrArg Prod.snd hvbo
    simp only [create_vbo, glGenBuffers, glBindBuffer, glBufferData] at h1 h2
    rw [← h2, ← h1]
    simp [create_vbo_calls]
  rcases hvao : create_vao B [0] [b] [3] [GL_FLOAT] 1 s1 with ⟨a, s2⟩
  have hvaof := create_vao_facts B [⟨0, b, 3, GL_FLOAT⟩] s1
  simp only [List.map_cons, List.map_nil, List.length_cons, List.length_nil, zero_add,
    hvao] at hvaof
  obtain ⟨hv1, -, -, -, -, hv6⟩ := hvaof
  rw [← hv1] at hv6
  obtain ⟨X, hX⟩ := compile_shader_program_trace B srcs n s2
  have hhead : (compile_shader_program B srcs n s2).state.trace =
      s.trace ++ (init_head_calls b a ++ X) := by
    rw [hX, hv6, hs1t, h0t]
    simp only [init_head_calls, List.append_assoc]
  rcases hc : compile_shader_program B srcs n s2 with ⟨r, s3⟩ | ⟨s3⟩
  · rw [hc] at hhead
    simp only [Outcome.state] at hhead
    by_cases hr : r = 0
    · refine ⟨b, a, X ++ [.glDeleteBuffers 1 b, .glDeleteVertexArrays 1 a], ?_⟩
      simp only [init_gl, hglew, hvbo, hvao, hc, Outcome.bind]
      simp [hr, glDeleteBuffers, glDeleteVertexArrays, hhead, Outcome.state]
    · refine ⟨b, a, X ++ uniform_calls B r, ?_⟩
      simp only [init_gl, hglew, hvbo, hvao, hc, Outcome.bind]
      simp [hr, glGetUniformLocation, GLState.record, hhead, uniform_calls, Outcome.state]
  · rw [hc] at hhead
    simp only [Outcome.state] at hhead
    refine ⟨b, a, X, ?_⟩
    simp only [init_gl, hglew, hvbo, hvao, hc, Outcome.bind]
    simp [hhead, Outcome.state]

theorem hideUniform_wellBehaved (B : Backend) (hB : B.WellBehaved) (name : String) :
    (B.hideUniform name).WellBehaved where
  shader_ne_zero := hB.shader_ne_zero
  shader_fresh := hB.shader_fresh
  program_ne_zero := hB.program_ne_zero
  program_fresh := hB.program_fresh
  buffer_ne_zero := hB.buffer_ne_zero
  buffer_fresh := hB.buffer_fresh
  vertexArray_ne_zero := hB.vertexArray_ne_zero
  vertexArray_fresh := hB.vertexArray_fresh

/-- Up to the location lookups, `init_gl` does not depend on which uniforms the
program declares: a run that returns on `B` returns on `B.hideUniform name`
with the same return value and the same three handles. -/
theorem init_gl_hideUniform (B : Backend) (name : String) (srcs : List String) (n : Nat)
    (res : gl_res) (s : GLState) (r : Nat) (res1 : gl_res)
    (h : (init_gl B srcs n res s).value? = some (r, res1)) :
    ∃ res2, (init_gl (B.hideUniform name) srcs n res s).value? = some (r, res2) ∧
      res2.quad_vbo = res1.quad_vbo ∧ res2.quad_vao = res1.quad_vao ∧
      res2.shader_program = res1.shader_program := by
  have e1 : init_glew (B.hideUniform name) s = init_glew B s := rfl
  have e2 : ∀ d k u t, create_vbo (B.hideUniform name) d k u t = create_vbo B d k u t :=
    fun _ _ _ _ => rfl
  have e3 : ∀ i v z y k t, create_vao (B.hideUniform name) i v z y k t = create_vao B i v z y k t :=
    fun _ _ _ _ _ _ => rfl
  have e4 : ∀ t, compile_shader_program (B.hideUniform name) srcs n t =
      compile_shader_program B srcs n t := fun _ => rfl
  rcases hg : init_glew B s with ⟨r0, s0⟩
  rcases hvbo : create_vbo B quad_buffer (quad_buffer.length * sizeof_GLfloat) GL_STATIC_DRAW s0
    with ⟨b, s1⟩
  rcases hvao : create_vao B [0] [b] [3] [GL_FLOAT] 1 s1 with ⟨a, s2⟩
  rcases hc : compile_shader_program B srcs n s2 with ⟨q, s3⟩ | ⟨s3⟩
  · simp only [init_gl, e1, e2, e3, e4, hg, hvbo, hvao, hc, Outcome.bind] at h ⊢
    split_ifs at h ⊢ <;>
      simp only [Outcome.value?, Option.some.injEq, Prod.mk.injEq, glGetUniformLocation] at h ⊢ <;>
      obtain ⟨rfl, rfl⟩ := h <;>
      exact ⟨_, ⟨rfl, rfl⟩, rfl, rfl, rfl⟩
  · simp only [init_gl, e1, e2, e3, e4, hg, hvbo, hvao, hc, Outcome.bind] at h ⊢
    split_ifs at h ⊢
    · simp only [Outcome.value?, Option.some.injEq, Prod.mk.injEq] at h ⊢
      obtain ⟨rfl, rfl⟩ := h
      exact ⟨_, ⟨rfl, rfl⟩, rfl, rfl, rfl⟩
    · simp [Outcome.value?] at h

theorem render_trace (res : gl_res) (s : GLState) :
    newCalls s (render res s).2 =
      [Call.glClear (GL_COLOR_BUFFER_BIT ||| GL_DEPTH_BUFFER_BIT),
       Call.glBindVertexArray res.quad_vao,
       Call.glDrawArrays GL_TRIANGLES 0 6,
       Call.glBindVertexArray 0] := by
  apply newCalls_of_trace
  simp [render, glClear, glBindVertexArray, glDrawArrays, GLState.record]

/-! ## Created and deleted names on the paths that return 1 -/

theorem failed_program_calls_read (B : Backend) (srcs : List String) (n : Nat)
    (v f : GLuint) :
    (createdShaders (failed_program_calls B srcs n v f)).Perm
      (deletedShaders (failed_program_calls B srcs n v f)) ∧
    createdPrograms (failed_program_calls B srcs n v f) = [] ∧
    deletedPrograms (failed_program_calls B srcs n v f) = [] ∧
    createdBuffers (failed_program_calls B srcs n v f) = [] ∧
    deletedBuffers (failed_program_calls B srcs n v f) = [] ∧
    createdVertexArrays (failed_program_calls B srcs n v f) = [] ∧
    deletedVertexArrays (failed_program_calls B srcs n v f) = [] := by
  unfold failed_program_calls
  split_ifs
  · simp [compile_fail_calls, createdShaders, deletedShaders, createdPrograms, deletedPrograms,
      createdBuffers, deletedBuffers, createdVertexArrays, deletedVertexArrays]
  · simp [compile_ok_calls, compile_fail_calls, createdShaders, deletedShaders,
      createdPrograms, deletedPrograms, createdBuffers, deletedBuffers, createdVertexArrays,
      deletedVertexArrays]
    exact List.Perm.swap f v []

theorem init_head_calls_read (b a : GLuint) :
    createdShaders (init_head_calls b a) = [] ∧
    deletedShaders (init_head_calls b a) = [] ∧
    createdPrograms (init_head_calls b a) = [] ∧
    deletedPrograms (init_head_calls b a) = [] ∧
    createdBuffers (init_head_calls b a) = [b] ∧
    deletedBuffers (init_head_calls b a) = [] ∧
    createdVertexArrays (init_head_calls b a) = [a] ∧
    deletedVertexArrays (init_head_calls b a) = [] := by
  simp [init_head_calls, create_vbo_calls, create_vao_calls, fill_calls, createdShaders,
    deletedShaders, createdPrograms, deletedPrograms, createdBuffers, deletedBuffers,
    createdVertexArrays, deletedVertexArrays]

/-- On an `init_gl` run that returns 1 with GLEW up, the one buffer and the one
vertex array created are the ones deleted. -/
theorem failed_init_calls_read (B : Backend) (srcs : List String) (n : Nat)
    (b a v f : GLuint) :
    createdBuffers (init_head_calls b a ++ failed_program_calls B srcs n v f ++
      [.glDeleteBuffers 1 b, .glDeleteVertexArrays 1 a]) = [b] ∧
    deletedBuffers (init_head_calls b a ++ failed_program_calls B srcs n v f ++
      [.glDeleteBuffers 1 b, .glDeleteVertexArrays 1 a]) = [b] ∧
    createdVertexArrays (init_head_calls b a ++ failed_program_calls B srcs n v f ++
      [.glDeleteBuffers 1 b, .glDeleteVertexArrays 1 a]) = [a] ∧
    deletedVertexArrays (init_head_calls b a ++ failed_program_calls B srcs n v f ++
      [.glDeleteBuffers 1 b, .glDeleteVertexArrays 1 a]) = [a] := by
  obtain ⟨-, -, -, f3, f4, f5, f6⟩ := failed_program_calls_read B srcs n v f
  obtain ⟨-, -, -, -, i5, i6, i7, i8⟩ := init_head_calls_read b a
  have t1 : createdBuffers [Call.glDeleteBuffers 1 b, Call.glDeleteVertexArrays 1 a] = [] ∧
      deletedBuffers [Call.glDeleteBuffers 1 b, Call.glDeleteVertexArrays 1 a] = [b] ∧
      createdVertexArrays [Call.glDeleteBuffers 1 b, Call.glDeleteVertexArrays 1 a] = [] ∧
      deletedVertexArrays [Call.glDeleteBuffers 1 b, Call.glDeleteVertexArrays 1 a] = [a] := by
    simp [createdBuffers, deletedBuffers, createdVertexArrays, deletedVertexArrays]
  obtain ⟨t1, t2, t3, t4⟩ := t1
  refine ⟨?_, ?_, ?_, ?_⟩
  · simp only [createdBuffers] at *
    simp only [List.filterMap_append, f3, i5, t1, List.append_nil]
  · simp only [deletedBuffers] at *
    simp only [List.filterMap_append, f4, i6, t2, List.append_nil, List.nil_append]
  · simp only [createdVertexArrays] at *
    simp only [List.filterMap_append, f5, i7, t3, List.append_nil]
  · simp only [deletedVertexArrays] at *
    simp only [List.filterMap_append, f6, i8, t4, List.append_nil, List.nil_append]

/-! # The claims -/

/-- C1 (code at the failing input): on the sample driver both shaders compile
and the link fails with a 16-byte info log.  `init_gl` does not return: the run
ends in undefined behaviour at `glGetProgramInfoLog(1, 16, NULL, NULL)`, the
fetch of the log into the never-assigned `log` pointer of
`link_shader_program`.  Nothing has been deleted by then: buffer 1, vertex
array 1, shaders 1 and 2 and program 1 are all live. -/
theorem init_gl_link_failure_undefined :
    (sampleBackend 0 true true false).linkOk
      [(GL_VERTEX_SHADER, [vshader_src]), (GL_FRAGMENT_SHADER, sampleSrcs.take 1)] = false ∧
    (sampleBackend 0 true true false).programLogLength
      [(GL_VERTEX_SHADER, [vshader_src]), (GL_FRAGMENT_SHADER, sampleSrcs.take 1)] = 16 ∧
    (init_gl (sampleBackend 0 true true false) sampleSrcs 1 sampleRes GLState.empty).value? =
      none ∧
    (init_gl (sampleBackend 0 true true false) sampleSrcs 1 sampleRes
      GLState.empty).state.trace.getLast? =
      some (Call.glGetProgramInfoLog 1 16 HostPtr.null) ∧
    (init_gl (sampleBackend 0 true true false) sampleSrcs 1 sampleRes
      GLState.empty).state.buffers = {1} ∧
    (init_gl (sampleBackend 0 true true false) sampleSrcs 1 sampleRes
      GLState.empty).state.vertexArrays = {1} ∧
    (init_gl (sampleBackend 0 true true false) sampleSrcs 1 sampleRes
      GLState.empty).state.shaders = {1, 2} ∧
    (init_gl (sampleBackend 0 true true false) sampleSrcs 1 sampleRes
      GLState.empty).state.programs = {1} ∧
    deletedBuffers (init_gl (sampleBackend 0 true true false) sampleSrcs 1 sampleRes
      GLState.empty).state.trace = [] ∧
    deletedVertexArrays (init_gl (sampleBackend 0 true true false) sampleSrcs 1 sampleRes
      GLState.empty).state.trace = [] := by
  decide

/-- C2 (code at the failing input): on the sample driver with both compiles and
the link succeeding, `compile_shader_program` returns program 1 and leaves the
vertex shader 1 and the fragment shader 2 live; it issues no `glDeleteShader`
call at all.  The same two shaders are still live after a successful `init_gl`
followed by `deinit_gl`. -/
theorem compile_shader_program_success_leaves_shaders :
    (compile_shader_program (sampleBackend 0 true true true) sampleSrcs 1
      GLState.empty).value? = some 1 ∧
    (compile_shader_program (sampleBackend 0 true true true) sampleSrcs 1
      GLState.empty).state.programs = {1} ∧
    (compile_shader_program (sampleBackend 0 true true true) sampleSrcs 1
      GLState.empty).state.shaders = {1, 2} ∧
    createdShaders (compile_shader_program (sampleBackend 0 true true true) sampleSrcs 1
      GLState.empty).state.trace = [1, 2] ∧
    deletedShaders (compile_shader_program (sampleBackend 0 true true true) sampleSrcs 1
      GLState.empty).state.trace = [] ∧
    (init_gl (sampleBackend 0 true true true) sampleSrcs 1 sampleRes GLState.empty).value? =
      some (0, ⟨1, 1, 1, 0, 1, 2, -1⟩) ∧
    (deinit_gl ⟨1, 1, 1, 0, 1, 2, -1⟩
      (init_gl (sampleBackend 0 true true true) sampleSrcs 1 sampleRes
        GLState.empty).state).programs = ∅ ∧
    (deinit_gl ⟨1, 1, 1, 0, 1, 2, -1⟩
      (init_gl (sampleBackend 0 true true true) sampleSrcs 1 sampleRes
        GLState.empty).state).shaders = {1, 2} := by
  decide

/-- C4 (code at the failing input): on the sample driver both shaders compile
and the link fails with a 16-byte info log.  `compile_shader_program` does not
return 0: it does not return at all, the run ends in undefined behaviour at the
fetch of the log into the null pointer inside `link_shader_program`, before
any `return`. -/
theorem compile_shader_program_link_failure_no_return :
    (sampleBackend 0 true true false).compileOk GL_VERTEX_SHADER [vshader_src] = true ∧
    (sampleBackend 0 true true false).compileOk GL_FRAGMENT_SHADER (sampleSrcs.take 1) =
      true ∧
    (sampleBackend 0 true true false).linkOk
      [(GL_VERTEX_SHADER, [vshader_src]), (GL_FRAGMENT_SHADER, sampleSrcs.take 1)] = false ∧
    (compile_shader_program (sampleBackend 0 true true false) sampleSrcs 1
      GLState.empty).value? ≠ some 0 ∧
    (compile_shader_program (sampleBackend 0 true true false) sampleSrcs 1
      GLState.empty).value? = none ∧
    (compile_shader_program (sampleBackend 0 true true false) sampleSrcs 1
      GLState.empty).state.trace.getLast? =
      some (Call.glGetProgramInfoLog 1 16 HostPtr.null) := by
  decide

/-- C5 (code at the failing input): on the sample driver both shaders compile
and the link fails with a 16-byte info log.  Shaders 1 and 2 and program 1 have
been created, and when the run ends, at the fetch of the log into the null
pointer, none of the three has been passed to a delete call; all three are
live. -/
theorem compile_shader_program_link_failure_deletes_nothing :
    (sampleBackend 0 true true false).linkOk
      [(GL_VERTEX_SHADER, [vshader_src]), (GL_FRAGMENT_SHADER, sampleSrcs.take 1)] = false ∧
    createdShaders (newCalls GLState.empty
      (compile_shader_program (sampleBackend 0 true true false) sampleSrcs 1
        GLState.empty).state) = [1, 2] ∧
    createdPrograms (newCalls GLState.empty
      (compile_shader_program (sampleBackend 0 true true false) sampleSrcs 1
        GLState.empty).state) = [1] ∧
    deletedShaders (newCalls GLState.empty
      (compile_shader_program (sampleBackend 0 true true false) sampleSrcs 1
        GLState.empty).state) = [] ∧
    deletedPrograms (newCalls GLState.empty
      (compile_shader_program (sampleBackend 0 true true false) sampleSrcs 1
        GLState.empty).state) = [] ∧
    (compile_shader_program (sampleBackend 0 true true false) sampleSrcs 1
      GLState.empty).state.shaders = {1, 2} ∧
    (compile_shader_program (sampleBackend 0 true true false) sampleSrcs 1
      GLState.empty).state.programs = {1} ∧
    (compile_shader_program (sampleBackend 0 true true false) sampleSrcs 1
      GLState.empty).value? = none := by
  decide

/-- C6 (counterexample): the fragment shader fails to compile; `init_gl`
returns 1, yet it has overwritten `quad_vbo` (77 before) with 1, the name of the
buffer it created and deleted again, `quad_vao` with 1 and `shader_program`
with 0. -/
theorem init_gl_failure_writes_aggregate :
    (init_gl (sampleBackend 0 true false true) sampleSrcs 1 sampleRes GLState.empty).value? =
      some (1, ⟨1, 1, 0, 77, 77, 77, 77⟩) ∧
    sampleRes.quad_vbo = 77 ∧
    (⟨1, 1, 0, 77, 77, 77, 77⟩ : gl_res) ≠ sampleRes ∧
    Call.glDeleteBuffers 1 1 ∈
      (init_gl (sampleBackend 0 true false true) sampleSrcs 1 sampleRes
        GLState.empty).state.trace ∧
    1 ∉ (init_gl (sampleBackend 0 true false true) sampleSrcs 1 sampleRes
      GLState.empty).state.buffers := by
  decide

/-- C6 (amended): on a driver that hands out fresh non-zero names, `init_gl`
returns unless both shaders compile and the link fails, and what it returns is
0 or 1.  If it returns 0, `quad_vbo`, `quad_vao` and `shader_program` are
non-zero names of a live buffer, a live vertex array and a live, linked
program.  If GLEW init fails, it returns 1 and the aggregate is untouched.  If
it returns 1 with GLEW up, the four uniform fields are untouched,
`shader_program` is 0, and `quad_vbo` and `quad_vao` hold the non-zero names of
the one buffer and the one vertex array that the call created and deleted,
which are not live. -/
theorem init_gl_aggregate (B : Backend) (hB : B.WellBehaved) (srcs : List String) (n : Nat)
    (res : gl_res) (s : GLState) :
    ((init_gl B srcs n res s).value? = none ↔
      (B.glewInitResult = GLEW_OK ∧
       B.compileOk GL_VERTEX_SHADER [vshader_src] = true ∧
       B.compileOk GL_FRAGMENT_SHADER (srcs.take n) = true ∧
       B.linkOk [(GL_VERTEX_SHADER, [vshader_src]), (GL_FRAGMENT_SHADER, srcs.take n)] =
         false)) ∧
    (∀ r res1, (init_gl B srcs n res s).value? = some (r, res1) → r = 0 ∨ r = 1) ∧
    (∀ res1, (init_gl B srcs n res s).value? = some (0, res1) →
      res1.quad_vbo ≠ 0 ∧
      res1.quad_vbo ∈ (init_gl B srcs n res s).state.buffers ∧
      res1.quad_vao ≠ 0 ∧
      res1.quad_vao ∈ (init_gl B srcs n res s).state.vertexArrays ∧
      res1.shader_program ≠ 0 ∧
      res1.shader_program ∈ (init_gl B srcs n res s).state.programs ∧
      (init_gl B srcs n res s).state.linkStatus res1.shader_program = true) ∧
    (B.glewInitResult ≠ GLEW_OK → (init_gl B srcs n res s).value? = some (1, res)) ∧
    (B.glewInitResult = GLEW_OK →
      ∀ res1, (init_gl B srcs n res s).value? = some (1, res1) →
      res1.uniform_time = res.uniform_time ∧
      res1.uniform_mouse = res.uniform_mouse ∧
      res1.uniform_mouse_pressed = res.uniform_mouse_pressed ∧
      res1.uniform_res = res.uniform_res ∧
      res1.shader_program = 0 ∧
      res1.quad_vbo ≠ 0 ∧
      res1.quad_vbo ∉ (init_gl B srcs n res s).state.buffers ∧
      res1.quad_vao ≠ 0 ∧
      res1.quad_vao ∉ (init_gl B srcs n res s).state.vertexArrays ∧
      createdBuffers (newCalls s (init_gl B srcs n res s).state) = [res1.quad_vbo] ∧
      deletedBuffers (newCalls s (init_gl B srcs n res s).state) = [res1.quad_vbo] ∧
      createdVertexArrays (newCalls s (init_gl B srcs n res s).state) = [res1.quad_vao] ∧
      deletedVertexArrays (newCalls s (init_gl B srcs n res s).state) = [res1.quad_vao]) := by
  obtain ⟨b, a, v, f, p, hb0, ha0, hp0, hbf, haf, -, -, -, -, h1, h2, h3, h4⟩ :=
    init_gl_cases B hB srcs n res s
  by_cases hg : B.glewInitResult = GLEW_OK
  · cases hv : B.compileOk GL_VERTEX_SHADER [vshader_src]
    · obtain ⟨e1, e2, e3, -, -, e6⟩ := h2 hg (Or.inl hv)
      obtain ⟨r1, r2, r3, r4⟩ := failed_init_calls_read B srcs n b a v f
      rw [newCalls_of_trace _ _ _ e6, e1, e2, e3, r1, r2, r3, r4]
      simp [hb0, ha0, hg, hbf, haf]
    · cases hf : B.compileOk GL_FRAGMENT_SHADER (srcs.take n)
      · obtain ⟨e1, e2, e3, -, -, e6⟩ := h2 hg (Or.inr hf)
        obtain ⟨r1, r2, r3, r4⟩ := failed_init_calls_read B srcs n b a v f
        rw [newCalls_of_trace _ _ _ e6, e1, e2, e3, r1, r2, r3, r4]
        simp [hb0, ha0, hg, hbf, haf]
      · cases hl : B.linkOk (program_units srcs n)
        · have hl2 := hl
          simp only [program_units] at hl2
          obtain ⟨e1, -⟩ := h3 hg hv hf hl
          rw [e1]
          simp [hg, hl2]
        · have hl2 := hl
          simp only [program_units] at hl2
          obtain ⟨e1, e2, e3, -, e5, e6, -⟩ := h4 hg hv hf hl
          rw [e1, e2, e3, e5]
          simp [hg, hl2, hb0, ha0, hp0, e6]
  · obtain ⟨e1, -⟩ := h1 hg
    rw [e1]
    simp [hg]

/-- C6 (amended, instance): the run of the counterexample. -/
theorem init_gl_aggregate_witness :
    (sampleBackend 0 true false true).WellBehaved ∧
    (init_gl (sampleBackend 0 true false true) sampleSrcs 1 sampleRes GLState.empty).value? =
      some (1, ⟨1, 1, 0, 77, 77, 77, 77⟩) ∧
    (⟨1, 1, 0, 77, 77, 77, 77⟩ : gl_res).uniform_res = sampleRes.uniform_res ∧
    (⟨1, 1, 0, 77, 77, 77, 77⟩ : gl_res).quad_vbo ∉
      (init_gl (sampleBackend 0 true false true) sampleSrcs 1 sampleRes
        GLState.empty).state.buffers :=
  have h := (init_gl_aggregate (sampleBackend 0 true false true)
    (sampleBackend_wellBehaved 0 true false true) sampleSrcs 1 sampleRes
    GLState.empty).2.2.2.2 (by decide) ⟨1, 1, 0, 77, 77, 77, 77⟩ (by decide)
  ⟨sampleBackend_wellBehaved 0 true false true, by decide, h.2.2.2.1, h.2.2.2.2.2.2.1⟩

/-- C7: on a driver that hands out fresh non-zero names, when GLEW init, both
compiles and the link succeed, `init_gl` returns 0 with an aggregate whose
`shader_program` is the program `p` that this call created (the one
`glCreateProgram` of the call returned it, it was not live before), attached
the two new shaders to and linked (it is live, its link status is true and its
units are the vertex shader source and the given fragment sources), and whose
four uniform fields hold the driver's location lookup, on `p`, of `time`,
`mouse`, `mouse_pressed` and `res` respectively; the calls of the run are the
buffer and vertex array set-up, the two compiles, the link and the four lookups
on `p`, in this order.  Hence if every lookup is at least -1, so is every
field; and for a program that does not declare `res`, `init_gl` still returns
0, `uniform_res` is -1, and every other field of the aggregate is what it is
when `res` is declared. -/
theorem init_gl_success_uniforms (B : Backend) (hB : B.WellBehaved) (srcs : List String)
    (n : Nat) (res : gl_res) (s : GLState)
    (hglew : B.glewInitResult = GLEW_OK)
    (hvert : B.compileOk GL_VERTEX_SHADER [vshader_src] = true)
    (hfrag : B.compileOk GL_FRAGMENT_SHADER (srcs.take n) = true)
    (hlink : B.linkOk [(GL_VERTEX_SHADER, [vshader_src]), (GL_FRAGMENT_SHADER, srcs.take n)] =
      true) :
    ∃ b a v f p : GLuint,
      p ≠ 0 ∧ p ∉ s.programs ∧ v ∉ s.shaders ∧ f ∉ s.shaders ∧ v ≠ f ∧
      (init_gl B srcs n res s).value? =
        some (0, ⟨b, a, p, B.uniformLocation p "time", B.uniformLocation p "mouse",
          B.uniformLocation p "mouse_pressed", B.uniformLocation p "res"⟩) ∧
      newCalls s (init_gl B srcs n res s).state =
        init_head_calls b a ++
          (compile_ok_calls GL_VERTEX_SHADER v [vshader_src] 1 ++
            compile_ok_calls GL_FRAGMENT_SHADER f srcs n ++
            link_ok_calls p [v, f]) ++
          [Call.glGetUniformLocation p "time" (B.uniformLocation p "time"),
           Call.glGetUniformLocation p "mouse" (B.uniformLocation p "mouse"),
           Call.glGetUniformLocation p "mouse_pressed" (B.uniformLocation p "mouse_pressed"),
           Call.glGetUniformLocation p "res" (B.uniformLocation p "res")] ∧
      createdPrograms (newCalls s (init_gl B srcs n res s).state) = [p] ∧
      deletedPrograms (newCalls s (init_gl B srcs n res s).state) = [] ∧
      (init_gl B srcs n res s).state.programs = insert p s.programs ∧
      (init_gl B srcs n res s).state.linkStatus p = true ∧
      (init_gl B srcs n res s).state.attachedUnits p =
        [(GL_VERTEX_SHADER, [vshader_src]), (GL_FRAGMENT_SHADER, srcs.take n)] ∧
      ((∀ q name, -1 ≤ B.uniformLocation q name) →
        -1 ≤ B.uniformLocation p "time" ∧ -1 ≤ B.uniformLocation p "mouse" ∧
        -1 ≤ B.uniformLocation p "mouse_pressed" ∧ -1 ≤ B.uniformLocation p "res") ∧
      (init_gl (B.hideUniform "res") srcs n res s).value? =
        some (0, ⟨b, a, p, B.uniformLocation p "time", B.uniformLocation p "mouse",
          B.uniformLocation p "mouse_pressed", -1⟩) := by
  have hlink2 : B.linkOk (program_units srcs n) = true := hlink
  obtain ⟨b, a, v, f, p, -, -, hp0, -, -, hvf, hff, hne, hpf, -, -, -, h4⟩ :=
    init_gl_cases B hB srcs n res s
  obtain ⟨e1, -, -, -, e5, e6, e7, e8⟩ := h4 hglew hvert hfrag hlink2
  obtain ⟨b2, a2, v2, f2, p2, -, -, -, -, -, -, -, -, -, -, -, -, k4⟩ :=
    init_gl_cases (B.hideUniform "res") (hideUniform_wellBehaved B hB "res") srcs n res s
  obtain ⟨k1, -⟩ := k4 hglew hvert hfrag hlink2
  obtain ⟨res2, hr, hb, ha, hp⟩ := init_gl_hideUniform B "res" srcs n res s 0 _ e1
  rw [k1] at hr
  simp only [Option.some.injEq, Prod.mk.injEq, true_and] at hr
  subst hr
  simp only at hb ha hp
  subst hb ha hp
  have hcalls := newCalls_of_trace _ _ _ e8
  obtain ⟨-, -, h1, h2, -⟩ := init_head_calls_read b2 a2
  obtain ⟨-, c1, -, c2, -⟩ := compile_ok_calls_read GL_VERTEX_SHADER v [vshader_src] 1
  obtain ⟨-, c3, -, c4, -⟩ := compile_ok_calls_read GL_FRAGMENT_SHADER f srcs n
  obtain ⟨-, l1, -, l2, -⟩ := link_ok_calls_read p2 [v, f]
  refine ⟨b2, a2, v, f, p2, hp0, hpf, hvf, hff, hne, e1, ?_, ?_, ?_, e5, e6, e7, ?_, ?_⟩
  · rw [hcalls]
    rfl
  · rw [hcalls]
    simp only [createdPrograms_append, h1, c1, c3, l1]
    simp [uniform_calls, createdPrograms]
  · rw [hcalls]
    simp only [deletedPrograms_append, h2, c2, c4, l2]
    simp [uniform_calls, deletedPrograms]
  · intro hge
    exact ⟨hge _ _, hge _ _, hge _ _, hge _ _⟩
  · rw [k1]
    simp [Backend.hideUniform]

/-- C7 (instance): on the sample driver, which knows `time`, `mouse` and
`mouse_pressed` but not `res`, the run from the empty state returns 0 with
buffer 1, vertex array 1, program 1 and locations 0, 1, 2, -1; program 1 is
the one program the call created, it is live and linked. -/
theorem init_gl_success_uniforms_witness :
    (sampleBackend 0 true true true).WellBehaved ∧
    (sampleBackend 0 true true true).glewInitResult = GLEW_OK ∧
    (init_gl (sampleBackend 0 true true true) sampleSrcs 1 sampleRes GLState.empty).value? =
      some (0, ⟨1, 1, 1, 0, 1, 2, -1⟩) ∧
    createdPrograms (newCalls GLState.empty
      (init_gl (sampleBackend 0 true true true) sampleSrcs 1 sampleRes
        GLState.empty).state) = [1] ∧
    (init_gl (sampleBackend 0 true true true) sampleSrcs 1 sampleRes
      GLState.empty).state.programs = {1} ∧
    (init_gl (sampleBackend 0 true true true) sampleSrcs 1 sampleRes
      GLState.empty).state.linkStatus 1 = true := by
  obtain ⟨b, a, v, f, p, -, -, -, -, -, e1, -, hc, -, hp, hl, -⟩ :=
    init_gl_success_uniforms (sampleBackend 0 true true true)
      (sampleBackend_wellBehaved 0 true true true) sampleSrcs 1 sampleRes GLState.empty
      (by decide) (by decide) (by decide) (by decide)
  have hv : (init_gl (sampleBackend 0 true true true) sampleSrcs 1 sampleRes
      GLState.empty).value? = some (0, ⟨1, 1, 1, 0, 1, 2, -1⟩) := by decide
  have hp1 : p = 1 := by
    rw [hv] at e1
    simp only [Option.some.injEq, Prod.mk.injEq, true_and, gl_res.mk.injEq] at e1
    exact e1.2.2.1.symm
  subst hp1
  exact ⟨sampleBackend_wellBehaved 0 true true true, by decide, hv, hc, by rw [hp]; rfl, hl⟩

/-- C8: for every aggregate and every state, `render` issues exactly four
calls: clear of the colour and depth buffers, bind of `quad_vao`, one
`glDrawArrays(GL_TRIANGLES, 0, 6)`, bind of vertex array 0.  That is its only
draw call; it looks up no uniform location (and `gl.c` has no call that sets a
uniform); the aggregate and the sets of live objects are unchanged. -/
theorem render_calls (res : gl_res) (s : GLState) :
    newCalls s (render res s).2 =
      [Call.glClear (GL_COLOR_BUFFER_BIT ||| GL_DEPTH_BUFFER_BIT),
       Call.glBindVertexArray res.quad_vao,
       Call.glDrawArrays GL_TRIANGLES 0 6,
       Call.glBindVertexArray 0] ∧
    GL_COLOR_BUFFER_BIT ||| GL_DEPTH_BUFFER_BIT = 0x4100 ∧
    drawCalls (newCalls s (render res s).2) = [Call.glDrawArrays GL_TRIANGLES 0 6] ∧
    (∀ p name loc, Call.glGetUniformLocation p name loc ∉ newCalls s (render res s).2) ∧
    (render res s).1 = res ∧
    (render res s).2.buffers = s.buffers ∧
    (render res s).2.vertexArrays = s.vertexArrays ∧
    (render res s).2.shaders = s.shaders ∧
    (render res s).2.programs = s.programs := by
  have ht := render_trace res s
  refine ⟨ht, by decide, ?_, ?_, rfl, rfl, rfl, rfl, rfl⟩
  · rw [ht]
    simp [drawCalls]
  · intro p name loc
    rw [ht]
    simp

/-- C9: `quad_buffer` holds 18 values, 6 vertices of 3 components each: as many
vertices as `render` draws and as many components as the attribute `init_gl`
declares (3 floats at index 0, over the 72-byte buffer made from the table).
Every third component is 0.  Reading vertices 0-2 and 3-5 as two triangles in
the plane, a point lies in one of them if and only if it lies in the square
[-1, 1] x [-1, 1]. -/
theorem quad_buffer_covers_square :
    quad_buffer.length = 18 ∧
    quad_buffer.length = 6 * 3 ∧
    (∀ res s, Call.glDrawArrays GL_TRIANGLES 0 6 ∈ newCalls s (render res s).2) ∧
    (∀ B srcs n res s, B.glewInitResult = GLEW_OK →
      Call.glBufferData GL_ARRAY_BUFFER (18 * 4) quad_buffer GL_STATIC_DRAW ∈
        newCalls s (init_gl B srcs n res s).state ∧
      Call.glVertexAttribPointer 0 3 GL_FLOAT GL_FALSE 0 0 ∈
        newCalls s (init_gl B srcs n res s).state) ∧
    (∀ i, i < 6 → quad_buffer.getD (3 * i + 2) 1 = 0) ∧
    (∀ x y : ℝ,
      (InTriangle (quadVertex 0) (quadVertex 1) (quadVertex 2) x y ∨
       InTriangle (quadVertex 3) (quadVertex 4) (quadVertex 5) x y) ↔
      (-1 ≤ x ∧ x ≤ 1 ∧ -1 ≤ y ∧ y ≤ 1)) := by
  refine ⟨rfl, rfl, ?_, ?_, by decide, ?_⟩
  · intro res s
    rw [render_trace res s]
    simp
  · intro B srcs n res s hg
    obtain ⟨b, a, rest, h⟩ := init_gl_trace_head B srcs n res s hg
    rw [newCalls_of_trace _ _ _ h]
    constructor
    · simp [init_head_calls, create_vbo_calls, quad_buffer, sizeof_GLfloat]
    · simp [init_head_calls, create_vao_calls, fill_calls]
  · intro x y
    have v0 : quadVertex 0 = (1, 1) := by decide
    have v1 : quadVertex 1 = (1, -1) := by decide
    have v2 : quadVertex 2 = (-1, 1) := by decide
    have v3 : quadVertex 3 = (-1, 1) := by decide
    have v4 : quadVertex 4 = (1, -1) := by decide
    have v5 : quadVertex 5 = (-1, -1) := by decide
    rw [v0, v1, v2, v3, v4, v5]
    simp only [InTriangle, Int.cast_one, Int.cast_neg]
    constructor
    · rintro (⟨a, b, c, ha, hb, hc, hsum, hx, hy⟩ | ⟨a, b, c, ha, hb, hc, hsum, hx, hy⟩)
      · refine ⟨?_, ?_, ?_, ?_⟩ <;> linarith
      · refine ⟨?_, ?_, ?_, ?_⟩ <;> linarith
    · rintro ⟨hx1, hx2, hy1, hy2⟩
      by_cases hxy : 0 ≤ x + y
      · left
        refine ⟨(x + y) / 2, (1 - y) / 2, (1 - x) / 2, ?_, ?_, ?_, ?_, ?_, ?_⟩ <;> linarith
      · right
        refine ⟨(1 + y) / 2, (1 + x) / 2, -(x + y) / 2, ?_, ?_, ?_, ?_, ?_, ?_⟩ <;> linarith

/-- C10: for every list `ds` of attribute descriptors, `create_vao` issues, in
this order, one `glGenVertexArrays`, the bind of the generated array, for each
descriptor in turn enable / bind buffer / layout with normalisation off, stride
0 and offset 0, the bind of vertex array 0, and only then one disable per
descriptor; it returns the generated name.  When that name is not 0, the
returned array is live and, for each listed descriptor, its attribute index is
still enabled and carries the layout of the last descriptor naming that index. -/
theorem create_vao_sequence_and_state (B : Backend) (ds : List AttribDesc) (s : GLState) :
    (create_vao B (ds.map (fun d => d.index)) (ds.map (fun d => d.vbo))
      (ds.map (fun d => d.size)) (ds.map (fun d => d.type)) ds.length s).1 =
      B.newVertexArrayName s ∧
    newCalls s (create_vao B (ds.map (fun d => d.index)) (ds.map (fun d => d.vbo))
      (ds.map (fun d => d.size)) (ds.map (fun d => d.type)) ds.length s).2 =
      [Call.glGenVertexArrays 1 (B.newVertexArrayName s),
       Call.glBindVertexArray (B.newVertexArrayName s)] ++
      ds.flatMap (fun d =>
        [Call.glEnableVertexAttribArray d.index, Call.glBindBuffer GL_ARRAY_BUFFER d.vbo,
         Call.glVertexAttribPointer d.index d.size d.type GL_FALSE 0 0]) ++
      [Call.glBindVertexArray 0] ++
      ds.map (fun d => Call.glDisableVertexAttribArray d.index) ∧
    (B.newVertexArrayName s ≠ 0 →
      B.newVertexArrayName s ∈
        (create_vao B (ds.map (fun d => d.index)) (ds.map (fun d => d.vbo))
          (ds.map (fun d => d.size)) (ds.map (fun d => d.type)) ds.length s).2.vertexArrays ∧
      ∀ d ∈ ds,
        (create_vao B (ds.map (fun d => d.index)) (ds.map (fun d => d.vbo))
          (ds.map (fun d => d.size)) (ds.map (fun d => d.type)) ds.length s).2.attribEnabled
            (B.newVertexArrayName s) d.index = true ∧
        ∃ d', d' ∈ ds ∧ d'.index = d.index ∧ lastDesc ds d.index = some d' ∧
          (create_vao B (ds.map (fun d => d.index)) (ds.map (fun d => d.vbo))
            (ds.map (fun d => d.size)) (ds.map (fun d => d.type)) ds.length s).2.attribLayout
              (B.newVertexArrayName s) d.index =
            some ⟨d'.vbo, d'.size, d'.type, GL_FALSE, 0, 0⟩) := by
  obtain ⟨h1, -, h3, -, -, h6⟩ := create_vao_facts B ds s
  refine ⟨h1, ?_, fun hvao => ⟨?_, fun d hd => ?_⟩⟩
  · rw [newCalls_of_trace _ _ _ h6]
    rfl
  · rw [h3]; simp
  · obtain ⟨he, hl⟩ := create_vao_attribs B ds s hvao d.index
    obtain ⟨d', hd', hidx, hlast⟩ := lastDesc_of_mem ds d hd
    refine ⟨?_, d', hd', hidx, hlast, ?_⟩
    · rw [he]
      simp only [List.mem_map, ite_eq_left_iff]
      intro hne
      exact absurd ⟨d, hd, rfl⟩ hne
    · rw [hl, hlast]
      rfl

/-- C10 (instance): two descriptors naming attribute 3, then one naming
attribute 5, on a state whose driver returns vertex array 1: attribute 3 ends
up enabled with the layout of the second descriptor. -/
theorem create_vao_sequence_and_state_witness :
    (sampleBackend 0 true true true).newVertexArrayName GLState.empty ≠ 0 ∧
    (create_vao (sampleBackend 0 true true true) [3, 3, 5] [10, 11, 12] [2, 3, 4]
      [GL_FLOAT, GL_FLOAT, GL_FLOAT] 3 GLState.empty).2.attribEnabled 1 3 = true ∧
    (create_vao (sampleBackend 0 true true true) [3, 3, 5] [10, 11, 12] [2, 3, 4]
      [GL_FLOAT, GL_FLOAT, GL_FLOAT] 3 GLState.empty).2.attribLayout 1 3 =
      some ⟨11, 3, GL_FLOAT, GL_FALSE, 0, 0⟩ := by
  have h := create_vao_sequence_and_state (sampleBackend 0 true true true)
    [⟨3, 10, 2, GL_FLOAT⟩, ⟨3, 11, 3, GL_FLOAT⟩, ⟨5, 12, 4, GL_FLOAT⟩] GLState.empty
  have hne : (sampleBackend 0 true true true).newVertexArrayName GLState.empty ≠ 0 := by decide
  obtain ⟨he, d', -, -, hlast, hl⟩ := (h.2.2 hne).2 ⟨3, 10, 2, GL_FLOAT⟩ (by simp)
  have hd' : d' = ⟨3, 11, 3, GL_FLOAT⟩ := by
    have : lastDesc [⟨3, 10, 2, GL_FLOAT⟩, ⟨3, 11, 3, GL_FLOAT⟩, ⟨5, 12, 4, GL_FLOAT⟩] 3 =
        some ⟨3, 11, 3, GL_FLOAT⟩ := by decide
    rw [this] at hlast
    exact (Option.some.inj hlast).symm
  subst hd'
  exact ⟨hne, he, hl⟩

end GLSLTest
